import Mathlib

/-!
Shallow embedding of the MAL-analytics profiler-object parser.

Source of authority:
  * src/mal_profiler/profiler_parser.py  — ProfilerObjectParser (__init__,
    _parse_trace, _parse_heartbeat, parse_object); translated function by
    function below.
  * src/mal_analytics/db_manager.py      — get_limits, create_parser.

External pieces, modelled at their interface:
  * json.loads (third-party): a raw input string decodes either to a
    JSON value or to a json.JSONDecodeError.  We model the decoder by its
    outcome, `Decoded := Option JValue` (none = JSONDecodeError); every
    input string corresponds to exactly one such outcome.
  * monetdblite / data/tables.sql (the storage sink; tables.sql is not
    under src/): inserts append the given column dictionary to the named
    table, chronologically.  The surrogate-key columns that the parser
    never writes (mal_variable.variable_id, in particular, which the
    parser reads back with SELECT variable_id FROM mal_variable WHERE
    name=?) are modelled from the spec, section 3: a surrogate key
    assigned consecutively by the storage, i.e. the i-th row ever
    inserted into mal_variable carries variable_id = i + 1.

Python-semantics conventions used throughout:
  * a JSON object decodes to a Python dict; we model it as an
    association list with pairwise-distinct keys (json.loads keeps one
    binding per key), looked up with `pyGet`;
  * `d.get(k)` is `pyGet` (returns none when the key is absent or when
    its value decodes to Python None, i.e. JSON null never happens:
    null is a value, so `pyGet` returns `some JValue.null` for it —
    the None-check of the source is therefore a match on
    none / some JValue.null);
  * `d[k]` is `pyGetItem` and raises KeyError / TypeError as Python does;
  * iterating a value (`for x in v`) is `pyIterV` / `pyIterOpt` and
    raises TypeError on non-iterables, in particular on Python None;
  * an exception raised part-way through a mutating method leaves the
    mutations made so far in place, so every fallible operation returns
    the (possibly mutated) state together with `Option PyErr`.
-/

namespace MalProfiler

/-- A decoded JSON value (json.loads output). JSON numbers are modelled as
integers; no claim computes on numeric field values, they are only carried
into rows and compared for equality. -/
inductive JValue where
  | null
  | bool (b : Bool)
  | num (n : Int)
  | str (s : String)
  | arr (elems : List JValue)
  | obj (fields : List (String × JValue))
deriving Repr

/-- Structural equality on JSON values, modelling the Python equality used
by dict lookup and by the SQL WHERE clauses of the source. -/
def JValue.beq : JValue → JValue → Bool
  | .null, .null => true
  | .bool a, .bool b => a == b
  | .num a, .num b => a == b
  | .str a, .str b => a == b
  | .arr as, .arr bs => beqArr as bs
  | .obj as, .obj bs => beqObj as bs
  | _, _ => false
where
  beqArr : List JValue → List JValue → Bool
    | [], [] => true
    | x :: xs, y :: ys => x.beq y && beqArr xs ys
    | _, _ => false
  beqObj : List (String × JValue) → List (String × JValue) → Bool
    | [], [] => true
    | (k, x) :: xs, (l, y) :: ys => k == l && x.beq y && beqObj xs ys
    | _, _ => false

instance : BEq JValue := ⟨JValue.beq⟩

/-- The fields of a decoded JSON object (a Python dict). -/
abbrev PyDict := List (String × JValue)

/-- Python `d.get(k)`: some value if the key is present, none otherwise. -/
def pyGet (d : PyDict) (k : String) : Option JValue :=
  (d.find? (fun p => p.1 == k)).map Prod.snd

/-- Python `d.get(k, default)`. -/
def pyGetD (d : PyDict) (k : String) (dflt : JValue) : JValue :=
  match pyGet d k with
  | some v => v
  | none => dflt

/-- Python exception kinds the parser can raise or catch. -/
inductive PyErr where
  | keyError
  | typeError
  | attributeError
deriving Repr, DecidableEq

/-- Python subscription `v[k]` with a string key: KeyError on a dict
missing the key, TypeError on any non-dict value. -/
def pyGetItem (v : JValue) (k : String) : Except PyErr JValue :=
  match v with
  | .obj fs =>
    match pyGet fs k with
    | some x => .ok x
    | none => .error .keyError
  | _ => .error .typeError

/-- Python iteration `for x in v` over a JSON-decoded value: lists yield
their elements, strings their one-character substrings, dicts their keys;
everything else (numbers, booleans, null=None) raises TypeError. -/
def pyIterV : JValue → Except PyErr (List JValue)
  | .arr xs => .ok xs
  | .str s => .ok (s.toList.map (fun c => JValue.str (String.mk [c])))
  | .obj fs => .ok (fs.map (fun p => JValue.str p.1))
  | _ => .error .typeError

/-- Python iteration over the result of `d.get(k)`: absent key gives
Python None, and iterating None raises TypeError. -/
def pyIterOpt : Option JValue → Except PyErr (List JValue)
  | none => .error .typeError
  | some v => pyIterV v

/-- Python truth of `value == 0` for a JSON-decoded value (used for the
end-of-life flag `var.get('eol') == 0`): the number 0 and False compare
equal to 0 in Python; None and everything else do not. -/
def pyEqZero : Option JValue → Bool
  | some (.num 0) => true
  | some (.bool false) => true
  | _ => false

/-- Python hashability of a JSON-decoded value: null (None), booleans,
numbers and strings hash; lists and dicts raise TypeError when hashed.
A tuple hashes exactly when its elements do. -/
def hashable : JValue → Bool
  | .arr _ => false
  | .obj _ => false
  | _ => true

/-- Hashability of a `d.get(k)` result (absent gives Python None, which
hashes). -/
def hashableOpt : Option JValue → Bool
  | Option.none => true
  | some v => hashable v

/-- The `self._states` dictionary of ProfilerObjectParser.__init__
applied with `.get`: `{'start': 0, 'done': 1, 'pause': 2}.get(x)`, where
`x` is the (possibly absent) state field.  dict.get hashes its key
first, so a list- or dict-valued state token raises TypeError; every
hashable token outside the enumeration (and an absent one) yields
Python None. -/
def statesGet : Option JValue → Except PyErr (Option Nat)
  | some (.str "start") => .ok (some 0)
  | some (.str "done") => .ok (some 1)
  | some (.str "pause") => .ok (some 2)
  | some (.arr _) => .error .typeError
  | some (.obj _) => .error .typeError
  | _ => .ok none

/-- A value stored in a row column: the Python values the parser puts
into its insert dictionaries. -/
inductive Col where
  | none
  | jv (v : JValue)
  | nat (n : Nat)
  | int (i : Int)
  | bool (b : Bool)
deriving Repr

/-- Equality of column values, delegating to JSON-value equality. -/
def Col.beq : Col → Col → Bool
  | .none, .none => true
  | .jv a, .jv b => a == b
  | .nat a, .nat b => a == b
  | .int a, .int b => a == b
  | .bool a, .bool b => a == b
  | _, _ => false

instance : BEq Col := ⟨Col.beq⟩

/-- Column value of an optional JSON value (`d.get(k)` results become SQL
NULL when absent). -/
def ofOpt : Option JValue → Col
  | Option.none => Col.none
  | some v => Col.jv v

/-- Column value of an optional integer (the execution_state field). -/
def ofOptNat : Option Nat → Col
  | Option.none => Col.none
  | some n => Col.nat n

/-- A row handed to mdbl.insert: the insert dictionary, in the key order
of the source literal. -/
abbrev Row := List (String × Col)

/-- Column access within a stored row. -/
def rowGet (r : Row) (k : String) : Option Col :=
  (r.find? (fun p => p.1 == k)).map Prod.snd

/-- The storage visible to the parser: the fixed external type catalog
(the read-only mal_type table, populated by the absent tables.sql) and the
chronological log of insert calls, each tagged with its table name. -/
structure DB where
  typeCatalog : List (JValue × Int)
  inserts : List (String × Row)
deriving Repr

/-- Rows of one table, in insertion order. -/
def DB.tableRows (db : DB) (t : String) : List Row :=
  ((db.inserts.filter (fun p => p.1 == t)).map Prod.snd)

/-- mdbl.insert: append the row to the named table. -/
def DB.insert (db : DB) (t : String) (r : Row) : DB :=
  { db with inserts := db.inserts ++ [(t, r)] }

/-- First matching type_id for a name in a catalog. -/
def lookupTypeCat (cat : List (JValue × Int)) (n : JValue) : Option Int :=
  (cat.find? (fun p => p.1 == n)).map Prod.snd

/-- The prepared statement SELECT type_id FROM mal_type WHERE name=?,
executed against the fixed catalog; the source takes the first result. -/
def DB.lookupType (db : DB) (n : JValue) : Option Int :=
  lookupTypeCat db.typeCatalog n

/-- Position (starting at `i`) of the first row satisfying `p`. -/
def firstMatchIdx (p : Row → Bool) : List Row → Nat → Option Nat
  | [], _ => none
  | r :: rs, i => if p r then some i else firstMatchIdx p rs (i + 1)

/-- The prepared statement SELECT variable_id FROM mal_variable WHERE
name=?; the source takes the first resulting variable_id.  Modelled from
the spec: the parser never writes a variable_id column (tables.sql is not
under src/), so per spec section 3 the storage assigns the surrogate key
consecutively — the i-th row ever inserted into mal_variable carries
variable_id = i, counting from 1. -/
def DB.lookupVariable (db : DB) (n : JValue) : Option Nat :=
  firstMatchIdx (fun r => rowGet r "name" == some (Col.jv n))
    (db.tableRows "mal_variable") 1

/-- The mutable state of a ProfilerObjectParser: the four id counters of
__init__ and the database client handle.  The four `-Produced` lists are
ghost observations, one entry per `+= 1` the source executes on the
corresponding counter, recording the id value each increment produced;
they are read by no parsing code and exist only to state monotonicity. -/
structure ParserState where
  execution_id : Nat
  event_id : Nat
  variable_id : Nat
  heartbeat_id : Nat
  db : DB
  execProduced : List Nat
  eventProduced : List Nat
  varProduced : List Nat
  hbProduced : List Nat
deriving Repr

/-- self._execution_id += 1 (the new counter value is the produced id). -/
def allocExecution (s : ParserState) : ParserState :=
  { s with execution_id := s.execution_id + 1,
           execProduced := s.execProduced ++ [s.execution_id + 1] }

/-- self._event_id += 1. -/
def allocEvent (s : ParserState) : ParserState :=
  { s with event_id := s.event_id + 1,
           eventProduced := s.eventProduced ++ [s.event_id + 1] }

/-- self._variable_id += 1. -/
def allocVariable (s : ParserState) : ParserState :=
  { s with variable_id := s.variable_id + 1,
           varProduced := s.varProduced ++ [s.variable_id + 1] }

/-- self._heartbeat_id += 1. -/
def allocHeartbeat (s : ParserState) : ParserState :=
  { s with heartbeat_id := s.heartbeat_id + 1,
           hbProduced := s.hbProduced ++ [s.heartbeat_id + 1] }

/-- mdbl.insert(table, data, client=self._db). -/
def insertRow (s : ParserState) (t : String) (r : Row) : ParserState :=
  { s with db := s.db.insert t r }

/-- Python `v.get(k)` on a value already known to be a dict (reached only
after a successful `v[...]` subscription established that `v` is one). -/
def jvGet (v : JValue) (k : String) : Option JValue :=
  match v with
  | .obj fs => pyGet fs k
  | _ => none

/-- The variable_data dictionary of _parse_trace, exactly the keys of the
source literal.  Note: the allocated surrogate id is NOT among them. -/
def variableRow (s : ParserState) (var : JValue) (tid : Int) : Row :=
  [("name", ofOpt (jvGet var "name")),
   ("mal_execution_id", Col.nat s.execution_id),
   ("alias", ofOpt (jvGet var "alias")),
   ("type_id", Col.int tid),
   ("is_persistent", Col.bool (jvGet var "kind" == some (JValue.str "persistent"))),
   ("bid", ofOpt (jvGet var "bid")),
   ("var_count", ofOpt (jvGet var "count")),
   ("var_size", ofOpt (jvGet var "size")),
   ("seqbase", ofOpt (jvGet var "seqbase")),
   ("hghbase", ofOpt (jvGet var "hghbase")),
   ("eol", Col.bool (pyEqZero (jvGet var "eol")))]

/-- The var_list_data dictionary of _parse_trace. -/
def varListEntry (s : ParserState) (var : JValue) (currentId : Nat) : Row :=
  [("variable_list_index", ofOpt (jvGet var "index")),
   ("event_id", Col.nat s.event_id),
   ("variable_id", Col.nat currentId)]

/-- One iteration of the `for var in var_list` loop of _parse_trace, for
the variable-list table `tbl`: look the name up session-wide; on first
sight bump the variable counter, resolve the type (an unknown type skips
this variable and its list entry) and insert the Variable row; finally
insert the list-entry row. -/
def processVar (tbl : String) (s : ParserState) (var : JValue) :
    ParserState × Option PyErr :=
  match pyGetItem var "name" with
  | .error e => (s, some e)
  | .ok nameV =>
    match s.db.lookupVariable nameV with
    | some foundId =>
      (insertRow s tbl (varListEntry s var foundId), none)
    | none =>
      let s1 := allocVariable s
      match pyGetItem var "type" with
      | .error e => (s1, some e)
      | .ok typeV =>
        match s1.db.lookupType typeV with
        | none => (s1, none)
        | some tid =>
          let s2 := insertRow s1 "mal_variable" (variableRow s1 var tid)
          (insertRow s2 tbl (varListEntry s2 var s2.variable_id), none)

/-- The `for var in var_list` loop: stops at the first raised exception,
keeping the mutations made so far. -/
def processVarList (tbl : String) : ParserState → List JValue →
    ParserState × Option PyErr
  | s, [] => (s, none)
  | s, v :: vs =>
    match processVar tbl s v with
    | (s1, none) => processVarList tbl s1 vs
    | (s1, some e) => (s1, some e)

/-- One iteration of the `for var_list_field in ('ret', 'arg')` loop:
fetch the list (defaulting to an empty one), iterate it. -/
def processField (s : ParserState) (j : PyDict) (field tbl : String) :
    ParserState × Option PyErr :=
  match pyIterV (pyGetD j field (.arr [])) with
  | .error e => (s, some e)
  | .ok vars => processVarList tbl s vars

/-- The `for prereq in json_object.get('prereq')` loop body: one
prerequisite_events row per prerequisite id, as given, the consequent
being the current event id. -/
def insertPrereqs (s : ParserState) (ps : List JValue) : ParserState :=
  ps.foldl (fun s p => insertRow s "prerequisite_events"
    [("prerequisite_event", Col.jv p),
     ("consequent_event", Col.nat s.event_id)]) s

/-- The infallible first lines of _parse_trace: allocate the execution
and event ids and insert the mal_execution row. -/
def traceExec (s : ParserState) (j : PyDict) : ParserState :=
  let s := allocExecution s
  let s := allocEvent s
  insertRow s "mal_execution"
    [("execution_id", Col.nat s.execution_id),
     ("server_session", ofOpt (pyGet j "session")),
     ("tag", ofOpt (pyGet j "tag"))]

/-- The profiler_event insert, for an already-computed state mapping. -/
def traceEvent (s : ParserState) (j : PyDict) (st : Option Nat) :
    ParserState :=
  insertRow s "profiler_event"
    [("mal_execution_id", Col.nat s.execution_id),
     ("pc", ofOpt (pyGet j "pc")),
     ("execution_state", ofOptNat st),
     ("clk", ofOpt (pyGet j "clk")),
     ("ctime", ofOpt (pyGet j "ctime")),
     ("thread", ofOpt (pyGet j "thread")),
     ("mal_function", ofOpt (pyGet j "function")),
     ("usec", ofOpt (pyGet j "usec")),
     ("rss", ofOpt (pyGet j "rss")),
     ("type_size", ofOpt (pyGet j "size")),
     ("long_statement", ofOpt (pyGet j "stmt")),
     ("short_statement", ofOpt (pyGet j "short"))]

/-- The head of _parse_trace, in source order: allocate the execution
and event ids, insert the mal_execution row, look the state token up
(dict.get hashes the token, so a list- or dict-valued one raises
TypeError here, after the mal_execution insert and before the
profiler_event one), and insert the profiler_event row. -/
def traceHead (s : ParserState) (j : PyDict) : ParserState × Option PyErr :=
  let s1 := traceExec s j
  match statesGet (pyGet j "state") with
  | .error e => (s1, some e)
  | .ok st => (traceEvent s1 j st, none)

/-- The tail of _parse_trace: the `for var_list_field in ('ret', 'arg')`
loop, ret first, stopping at the first raised exception. -/
def traceVarPhase (s : ParserState) (j : PyDict) :
    ParserState × Option PyErr :=
  match processField s j "ret" "return_variable_list" with
  | (s1, some e) => (s1, some e)
  | (s1, none) => processField s1 j "arg" "argument_variable_list"

/-- ProfilerObjectParser._parse_trace, in source order: allocate the
execution and event ids, insert the mal_execution and profiler_event
rows, insert one prerequisite_events row per prerequisite, then process
the return and argument variable lists. -/
def ProfilerObjectParser_parse_trace (s : ParserState) (j : PyDict) :
    ParserState × Option PyErr :=
  match traceHead s j with
  | (s1, some e) => (s1, some e)
  | (s1, none) =>
    match pyIterOpt (pyGet j "prereq") with
    | .error e => (s1, some e)
    | .ok ps => traceVarPhase (insertPrereqs s1 ps) j

/-- The `for c in json_object['cpuload']` loop body: one cpuload row per
sample, in list order, each referencing the current heartbeat id. -/
def insertCpuloads (s : ParserState) (cs : List JValue) : ParserState :=
  cs.foldl (fun s c => insertRow s "cpuload"
    [("heartbeat_id", Col.nat s.heartbeat_id),
     ("val", Col.jv c)]) s

/-- Hashability of the five heartbeat data fields: building the set of
(key, value) pairs hashes each pair, and a pair hashes exactly when its
value does. -/
def hbFieldsHashable (j : PyDict) : Bool :=
  hashableOpt (pyGet j "server_session") && hashableOpt (pyGet j "clk") &&
    hashableOpt (pyGet j "ctime") && hashableOpt (pyGet j "rss") &&
    hashableOpt (pyGet j "nvcsw")

/-- ProfilerObjectParser._parse_heartbeat: allocate the heartbeat id,
build the heartbeat data, insert it, then one cpuload row per sample.
The source builds the data as a Python SET of (key, value) pairs — spec
section 9 flags this as a defect — so a list- or dict-valued field makes
the comprehension raise TypeError (unhashable member) after the id was
allocated and before anything is inserted; otherwise we record the set's
contents in the data_keys order of the source tuple.  Note the allocated
heartbeat id is not among the pairs. -/
def ProfilerObjectParser_parse_heartbeat (s : ParserState) (j : PyDict) :
    ParserState × Option PyErr :=
  let s := allocHeartbeat s
  if hbFieldsHashable j then
    let s := insertRow s "heartbeat"
      [("server_session", ofOpt (pyGet j "server_session")),
       ("clk", ofOpt (pyGet j "clk")),
       ("ctime", ofOpt (pyGet j "ctime")),
       ("rss", ofOpt (pyGet j "rss")),
       ("nvcsw", ofOpt (pyGet j "nvcsw"))]
    match pyGetItem (JValue.obj j) "cpuload" with
    | .error e => (s, some e)
    | .ok cl =>
      match pyIterV cl with
      | .error e => (s, some e)
      | .ok cs => (insertCpuloads s cs, none)
  else (s, some PyErr.typeError)

/-- The `try: dispatcher[source](json_object) except KeyError: ... return`
of parse_object: a KeyError raised by the dispatch or inside a normalizer
is caught and logged; every other exception propagates; the state
mutations made before the exception persist either way. -/
def catchKeyError : ParserState × Option PyErr → ParserState × Option PyErr
  | (s, some .keyError) => (s, none)
  | r => r

/-- ProfilerObjectParser.parse_object.  json.loads is modelled by its
outcome (none = json.JSONDecodeError, logged and dropped).  A non-dict
top-level value raises AttributeError at json_object.get('source').  A
source of Python None takes the None branch, whose second logging line
evaluates json_object['source']: it raises KeyError when the key is
absent, and succeeds (record dropped) when the key holds JSON null.
Otherwise dispatcher[source] hashes the discriminator: a list or dict
raises TypeError, which the except KeyError handler does not catch; any
other unrecognized value raises KeyError, caught and logged; trace and
heartbeat dispatch under the KeyError handler. -/
def ProfilerObjectParser_parse_object (s : ParserState)
    (decoded : Option JValue) : ParserState × Option PyErr :=
  match decoded with
  | none => (s, none)
  | some j =>
    match j with
    | .obj fs =>
      match pyGet fs "source" with
      | none | some .null =>
        (match pyGetItem (JValue.obj fs) "source" with
         | .error e => (s, some e)
         | .ok _ => (s, none))
      | some (.str "trace") =>
        catchKeyError (ProfilerObjectParser_parse_trace s fs)
      | some (.str "heartbeat") =>
        catchKeyError (ProfilerObjectParser_parse_heartbeat s fs)
      | some (.arr _) => (s, some PyErr.typeError)
      | some (.obj _) => (s, some PyErr.typeError)
      | some _ => (s, none)
    | _ => (s, some PyErr.attributeError)

/-- A whole input stream, one decoded record after the other, threading
the parser state; the state mutated by a record whose processing raised
persists into the next record. -/
def processStream (s : ParserState) (inputs : List (Option JValue)) :
    ParserState :=
  inputs.foldl (fun s i => (ProfilerObjectParser_parse_object s i).1) s

/-- SELECT MAX(execution_id) FROM mal_execution, with NULL read as 0
(DatabaseManager.get_limits). -/
def maxExecutionId (db : DB) : Nat :=
  (db.tableRows "mal_execution").foldl
    (fun m r => match rowGet r "execution_id" with
      | some (Col.nat n) => max m n
      | _ => m) 0

/-- DatabaseManager.get_limits: the four MAX queries, each NULL read as 0.
The event, variable and heartbeat maxima read surrogate columns the
parser never writes; in the storage model (consecutive assignment,
spec section 3, tables.sql absent from src/) their maximum equals the
row count of the table. -/
def DatabaseManager_get_limits (db : DB) : Nat × Nat × Nat × Nat :=
  (maxExecutionId db,
   (db.tableRows "profiler_event").length,
   (db.tableRows "mal_variable").length,
   (db.tableRows "heartbeat").length)

/-- The ProfilerObjectParser.__init__ of src/mal_profiler: all four id
counters start at 0 and the database handle is stored. -/
def ProfilerObjectParser_init (db : DB) : ParserState :=
  ⟨0, 0, 0, 0, db, [], [], [], []⟩

/-- Modelled from the spec: the ProfilerObjectParser instantiated by
DatabaseManager.create_parser is the one of mal_analytics/
profiler_parser.py, a file that is not under src/; per spec sections 4.1
and 4.6 it is constructed with the four starting limits (the persisted
maxima), which seed the four id counters.  The increment discipline of
the counters is that of src/mal_profiler/profiler_parser.py. -/
def ProfilerObjectParser_init_limits (a b c d : Nat) (db : DB) :
    ParserState :=
  ⟨a, b, c, d, db, [], [], [], []⟩

/-- DatabaseManager.create_parser: ProfilerObjectParser(*self.get_limits()). -/
def DatabaseManager_createParser (db : DB) : ParserState :=
  match DatabaseManager_get_limits db with
  | (a, b, c, d) => ProfilerObjectParser_init_limits a b c d db

/-! Basic facts about the storage and allocator operations. -/

@[simp]
theorem DB.tableRows_insert (db : DB) (t t' : String) (r : Row) :
    (db.insert t r).tableRows t' =
      db.tableRows t' ++ if t = t' then [r] else [] := by
  by_cases h : t = t' <;>
    simp [DB.insert, DB.tableRows, List.filter_append, h]

@[simp]
theorem DB.typeCatalog_insert (db : DB) (t : String) (r : Row) :
    (db.insert t r).typeCatalog = db.typeCatalog := rfl

@[simp]
theorem insertRow_execution_id (s : ParserState) (t : String) (r : Row) :
    (insertRow s t r).execution_id = s.execution_id := rfl

@[simp]
theorem insertRow_event_id (s : ParserState) (t : String) (r : Row) :
    (insertRow s t r).event_id = s.event_id := rfl

@[simp]
theorem insertRow_variable_id (s : ParserState) (t : String) (r : Row) :
    (insertRow s t r).variable_id = s.variable_id := rfl

@[simp]
theorem insertRow_heartbeat_id (s : ParserState) (t : String) (r : Row) :
    (insertRow s t r).heartbeat_id = s.heartbeat_id := rfl

@[simp]
theorem insertRow_execProduced (s : ParserState) (t : String) (r : Row) :
    (insertRow s t r).execProduced = s.execProduced := rfl

@[simp]
theorem insertRow_eventProduced (s : ParserState) (t : String) (r : Row) :
    (insertRow s t r).eventProduced = s.eventProduced := rfl

@[simp]
theorem insertRow_varProduced (s : ParserState) (t : String) (r : Row) :
    (insertRow s t r).varProduced = s.varProduced := rfl

@[simp]
theorem insertRow_hbProduced (s : ParserState) (t : String) (r : Row) :
    (insertRow s t r).hbProduced = s.hbProduced := rfl

@[simp]
theorem insertRow_tableRows (s : ParserState) (t t' : String) (r : Row) :
    (insertRow s t r).db.tableRows t' =
      s.db.tableRows t' ++ if t = t' then [r] else [] := by
  simp [insertRow]

@[simp]
theorem insertRow_typeCatalog (s : ParserState) (t : String) (r : Row) :
    (insertRow s t r).db.typeCatalog = s.db.typeCatalog := rfl

theorem insertRow_db (s : ParserState) (t : String) (r : Row) :
    (insertRow s t r).db = s.db.insert t r := rfl

@[simp]
theorem allocVariable_db (s : ParserState) : (allocVariable s).db = s.db := rfl

@[simp]
theorem allocVariable_variable_id (s : ParserState) :
    (allocVariable s).variable_id = s.variable_id + 1 := rfl

@[simp]
theorem allocVariable_execution_id (s : ParserState) :
    (allocVariable s).execution_id = s.execution_id := rfl

@[simp]
theorem allocVariable_event_id (s : ParserState) :
    (allocVariable s).event_id = s.event_id := rfl

@[simp]
theorem allocVariable_heartbeat_id (s : ParserState) :
    (allocVariable s).heartbeat_id = s.heartbeat_id := rfl

@[simp]
theorem allocExecution_db (s : ParserState) : (allocExecution s).db = s.db := rfl

@[simp]
theorem allocEvent_db (s : ParserState) : (allocEvent s).db = s.db := rfl

@[simp]
theorem allocHeartbeat_db (s : ParserState) : (allocHeartbeat s).db = s.db := rfl

@[simp]
theorem allocExecution_execution_id (s : ParserState) :
    (allocExecution s).execution_id = s.execution_id + 1 := rfl

@[simp]
theorem allocExecution_event_id (s : ParserState) :
    (allocExecution s).event_id = s.event_id := rfl

@[simp]
theorem allocEvent_event_id (s : ParserState) :
    (allocEvent s).event_id = s.event_id + 1 := rfl

@[simp]
theorem allocEvent_execution_id (s : ParserState) :
    (allocEvent s).execution_id = s.execution_id := rfl

@[simp]
theorem allocHeartbeat_heartbeat_id (s : ParserState) :
    (allocHeartbeat s).heartbeat_id = s.heartbeat_id + 1 := rfl

/-- Inserting into a table other than mal_variable leaves the variable
lookup untouched. -/
theorem lookupVariable_insert_other (db : DB) (t : String) (r : Row)
    (n : JValue) (h : t ≠ "mal_variable") :
    (db.insert t r).lookupVariable n = db.lookupVariable n := by
  simp [DB.lookupVariable, h]

theorem firstMatchIdx_append_singleton_none (p : Row → Bool)
    (xs : List Row) (x : Row) :
    ∀ i, firstMatchIdx p (xs ++ [x]) i = none ↔
      firstMatchIdx p xs i = none ∧ p x = false := by
  induction xs with
  | nil =>
    intro i
    by_cases h : p x <;> simp [firstMatchIdx, h]
  | cons y ys ih =>
    intro i
    by_cases h : p y <;> simp [firstMatchIdx, h, ih]

/-- Inserting a mal_variable row whose name column differs from the
looked-up name preserves an empty lookup result. -/
theorem lookupVariable_insert_mal_none (db : DB) (r : Row) (n : JValue) :
    (db.insert "mal_variable" r).lookupVariable n = none ↔
      db.lookupVariable n = none ∧
        (rowGet r "name" == some (Col.jv n)) = false := by
  simp [DB.lookupVariable, firstMatchIdx_append_singleton_none]

/-- A state-insensitive fold of inserts into one table, seen from another
table: no change. -/
theorem foldl_insert_tableRows_other {α : Type} (tb t : String)
    (h : tb ≠ t) (g : ParserState → α → Row) :
    ∀ (xs : List α) (s : ParserState),
      ((xs.foldl (fun s x => insertRow s tb (g s x)) s).db.tableRows t) =
        s.db.tableRows t := by
  intro xs
  induction xs with
  | nil => intro s; rfl
  | cons x xs ih => intro s; simp [ih, h]

theorem foldl_insert_typeCatalog {α : Type} (tb : String)
    (g : ParserState → α → Row) :
    ∀ (xs : List α) (s : ParserState),
      ((xs.foldl (fun s x => insertRow s tb (g s x)) s).db.typeCatalog) =
        s.db.typeCatalog := by
  intro xs
  induction xs with
  | nil => intro s; rfl
  | cons x xs ih => intro s; simp [ih]

/-- A fold of inserts into one table whose rows do not depend on the
database contents: the table receives exactly the mapped rows, in
order. -/
theorem foldl_insert_tableRows_self {α : Type} (tb : String)
    (g : ParserState → α → Row)
    (hg : ∀ s t r x, g (insertRow s t r) x = g s x) :
    ∀ (xs : List α) (s : ParserState),
      ((xs.foldl (fun s x => insertRow s tb (g s x)) s).db.tableRows tb) =
        s.db.tableRows tb ++ xs.map (g s) := by
  intro xs
  induction xs with
  | nil => intro s; simp
  | cons x xs ih =>
    intro s
    have hmap : xs.map (g (insertRow s tb (g s x))) = xs.map (g s) :=
      List.map_congr_left (fun y _ => hg s tb (g s x) y)
    simp [ih, hmap]

/-! Preservation facts about variable-list processing, independent of the
shape of the processed entries. -/

theorem processVar_tableRows_other (tbl t : String) (h1 : tbl ≠ t)
    (h2 : "mal_variable" ≠ t) (s : ParserState) (v : JValue) :
    ((processVar tbl s v).1.db.tableRows t) = s.db.tableRows t := by
  unfold processVar
  split
  · rfl
  · split
    · simp [h1]
    · split
      · rfl
      · dsimp only
        split
        · rfl
        · simp [h1, h2]

theorem processVar_typeCatalog (tbl : String) (s : ParserState)
    (v : JValue) :
    ((processVar tbl s v).1.db.typeCatalog) = s.db.typeCatalog := by
  unfold processVar
  split
  · rfl
  · split
    · rfl
    · split
      · rfl
      · dsimp only
        split <;> rfl

theorem processVarList_tableRows_other (tbl t : String) (h1 : tbl ≠ t)
    (h2 : "mal_variable" ≠ t) :
    ∀ (vs : List JValue) (s : ParserState),
      ((processVarList tbl s vs).1.db.tableRows t) = s.db.tableRows t := by
  intro vs
  induction vs with
  | nil => intro s; rfl
  | cons v vs ih =>
    intro s
    unfold processVarList
    split
    next s1 heq =>
      rw [ih]
      have := processVar_tableRows_other tbl t h1 h2 s v
      rw [heq] at this
      exact this
    next s1 e heq =>
      have := processVar_tableRows_other tbl t h1 h2 s v
      rw [heq] at this
      exact this

theorem processVarList_typeCatalog (tbl : String) :
    ∀ (vs : List JValue) (s : ParserState),
      ((processVarList tbl s vs).1.db.typeCatalog) = s.db.typeCatalog := by
  intro vs
  induction vs with
  | nil => intro s; rfl
  | cons v vs ih =>
    intro s
    unfold processVarList
    split
    next s1 heq =>
      rw [ih]
      have := processVar_typeCatalog tbl s v
      rw [heq] at this
      exact this
    next s1 e heq =>
      have := processVar_typeCatalog tbl s v
      rw [heq] at this
      exact this

theorem processField_tableRows_other (t field tbl : String) (h1 : tbl ≠ t)
    (h2 : "mal_variable" ≠ t) (s : ParserState) (j : PyDict) :
    ((processField s j field tbl).1.db.tableRows t) = s.db.tableRows t := by
  unfold processField
  split
  · rfl
  · exact processVarList_tableRows_other tbl t h1 h2 _ s

theorem processField_typeCatalog (field tbl : String) (s : ParserState)
    (j : PyDict) :
    ((processField s j field tbl).1.db.typeCatalog) = s.db.typeCatalog := by
  unfold processField
  split
  · rfl
  · exact processVarList_typeCatalog tbl _ s

/-- The infallible part of the head phase only appends the
mal_execution row. -/
theorem traceExec_tableRows_other (t : String) (h1 : "mal_execution" ≠ t)
    (s : ParserState) (j : PyDict) :
    (traceExec s j).db.tableRows t = s.db.tableRows t := by
  simp [traceExec, h1]

/-- The mal_execution row of one trace, emitted before the state
lookup, so unconditionally. -/
theorem traceExec_mal_execution (s : ParserState) (j : PyDict) :
    (traceExec s j).db.tableRows "mal_execution" =
      s.db.tableRows "mal_execution" ++
        [[("execution_id", Col.nat (s.execution_id + 1)),
          ("server_session", ofOpt (pyGet j "session")),
          ("tag", ofOpt (pyGet j "tag"))]] := by
  simp [traceExec]

theorem traceExec_ids (s : ParserState) (j : PyDict) :
    (traceExec s j).execution_id = s.execution_id + 1 ∧
    (traceExec s j).event_id = s.event_id + 1 ∧
    (traceExec s j).variable_id = s.variable_id ∧
    (traceExec s j).heartbeat_id = s.heartbeat_id ∧
    (traceExec s j).execProduced = s.execProduced ++ [s.execution_id + 1] ∧
    (traceExec s j).eventProduced = s.eventProduced ++ [s.event_id + 1] ∧
    (traceExec s j).varProduced = s.varProduced ∧
    (traceExec s j).hbProduced = s.hbProduced :=
  ⟨rfl, rfl, rfl, rfl, rfl, rfl, rfl, rfl⟩

theorem traceExec_typeCatalog (s : ParserState) (j : PyDict) :
    (traceExec s j).db.typeCatalog = s.db.typeCatalog := rfl

theorem traceEvent_tableRows_other (t : String)
    (h2 : "profiler_event" ≠ t) (s : ParserState) (j : PyDict)
    (st : Option Nat) :
    (traceEvent s j st).db.tableRows t = s.db.tableRows t := by
  simp [traceEvent, h2]

/-- The profiler_event row of one trace with mapped state `st`. -/
theorem traceEvent_profiler_event (s : ParserState) (j : PyDict)
    (st : Option Nat) :
    (traceEvent s j st).db.tableRows "profiler_event" =
      s.db.tableRows "profiler_event" ++
        [[("mal_execution_id", Col.nat s.execution_id),
          ("pc", ofOpt (pyGet j "pc")),
          ("execution_state", ofOptNat st),
          ("clk", ofOpt (pyGet j "clk")),
          ("ctime", ofOpt (pyGet j "ctime")),
          ("thread", ofOpt (pyGet j "thread")),
          ("mal_function", ofOpt (pyGet j "function")),
          ("usec", ofOpt (pyGet j "usec")),
          ("rss", ofOpt (pyGet j "rss")),
          ("type_size", ofOpt (pyGet j "size")),
          ("long_statement", ofOpt (pyGet j "stmt")),
          ("short_statement", ofOpt (pyGet j "short"))]] := by
  simp [traceEvent]

theorem traceEvent_typeCatalog (s : ParserState) (j : PyDict)
    (st : Option Nat) :
    (traceEvent s j st).db.typeCatalog = s.db.typeCatalog := rfl

/-- When the state token maps (is hashable), the head phase succeeds
with both rows inserted. -/
theorem traceHead_ok (s : ParserState) (j : PyDict) (st : Option Nat)
    (hstate : statesGet (pyGet j "state") = Except.ok st) :
    traceHead s j = (traceEvent (traceExec s j) j st, none) := by
  unfold traceHead
  rw [hstate]

/-- When hashing the state token raises, the head phase stops right
after the mal_execution insert. -/
theorem traceHead_err (s : ParserState) (j : PyDict) (e : PyErr)
    (hstate : statesGet (pyGet j "state") = Except.error e) :
    traceHead s j = (traceExec s j, some e) := by
  unfold traceHead
  rw [hstate]

/-- Whether or not the state lookup raises, the head phase only appends
mal_execution and profiler_event rows. -/
theorem traceHead_tableRows_other (t : String) (h1 : "mal_execution" ≠ t)
    (h2 : "profiler_event" ≠ t) (s : ParserState) (j : PyDict) :
    (traceHead s j).1.db.tableRows t = s.db.tableRows t := by
  unfold traceHead
  split
  · exact traceExec_tableRows_other t h1 s j
  · rw [traceEvent_tableRows_other t h2]
    exact traceExec_tableRows_other t h1 s j

/-- The mal_execution row is emitted whether or not the state lookup
raises. -/
theorem traceHead_mal_execution (s : ParserState) (j : PyDict) :
    (traceHead s j).1.db.tableRows "mal_execution" =
      s.db.tableRows "mal_execution" ++
        [[("execution_id", Col.nat (s.execution_id + 1)),
          ("server_session", ofOpt (pyGet j "session")),
          ("tag", ofOpt (pyGet j "tag"))]] := by
  unfold traceHead
  split
  · exact traceExec_mal_execution s j
  · rw [traceEvent_tableRows_other _ (by decide)]
    exact traceExec_mal_execution s j

theorem traceHead_ids (s : ParserState) (j : PyDict) :
    (traceHead s j).1.execution_id = s.execution_id + 1 ∧
    (traceHead s j).1.event_id = s.event_id + 1 ∧
    (traceHead s j).1.variable_id = s.variable_id ∧
    (traceHead s j).1.heartbeat_id = s.heartbeat_id ∧
    (traceHead s j).1.execProduced = s.execProduced ++ [s.execution_id + 1] ∧
    (traceHead s j).1.eventProduced = s.eventProduced ++ [s.event_id + 1] ∧
    (traceHead s j).1.varProduced = s.varProduced ∧
    (traceHead s j).1.hbProduced = s.hbProduced := by
  unfold traceHead
  split
  · exact traceExec_ids s j
  · exact traceExec_ids s j

theorem traceHead_typeCatalog (s : ParserState) (j : PyDict) :
    (traceHead s j).1.db.typeCatalog = s.db.typeCatalog := by
  unfold traceHead
  split
  · rfl
  · rfl

/-- The variable phase never touches tables other than the two list
tables and mal_variable. -/
theorem traceVarPhase_tableRows_other (t : String)
    (h1 : "return_variable_list" ≠ t) (h2 : "argument_variable_list" ≠ t)
    (h3 : "mal_variable" ≠ t) (s : ParserState) (j : PyDict) :
    ((traceVarPhase s j).1.db.tableRows t) = s.db.tableRows t := by
  unfold traceVarPhase
  split
  next s1 e heq =>
    have h := processField_tableRows_other t "ret" "return_variable_list"
      h1 h3 s j
    rw [heq] at h
    exact h
  next s1 heq =>
    rw [processField_tableRows_other t "arg" "argument_variable_list"
      h2 h3 s1 j]
    have h := processField_tableRows_other t "ret" "return_variable_list"
      h1 h3 s j
    rw [heq] at h
    exact h

theorem traceVarPhase_typeCatalog (s : ParserState) (j : PyDict) :
    ((traceVarPhase s j).1.db.typeCatalog) = s.db.typeCatalog := by
  unfold traceVarPhase
  split
  next s1 e heq =>
    have h := processField_typeCatalog "ret" "return_variable_list" s j
    rw [heq] at h
    exact h
  next s1 heq =>
    rw [processField_typeCatalog "arg" "argument_variable_list" s1 j]
    have h := processField_typeCatalog "ret" "return_variable_list" s j
    rw [heq] at h
    exact h

/-- A fold of inserts leaves every counter and every ghost log
untouched. -/
theorem foldl_insert_ids {α : Type} (tb : String)
    (g : ParserState → α → Row) :
    ∀ (xs : List α) (s : ParserState),
      (xs.foldl (fun s x => insertRow s tb (g s x)) s).execution_id =
          s.execution_id ∧
      (xs.foldl (fun s x => insertRow s tb (g s x)) s).event_id =
          s.event_id ∧
      (xs.foldl (fun s x => insertRow s tb (g s x)) s).variable_id =
          s.variable_id ∧
      (xs.foldl (fun s x => insertRow s tb (g s x)) s).heartbeat_id =
          s.heartbeat_id ∧
      (xs.foldl (fun s x => insertRow s tb (g s x)) s).execProduced =
          s.execProduced ∧
      (xs.foldl (fun s x => insertRow s tb (g s x)) s).eventProduced =
          s.eventProduced ∧
      (xs.foldl (fun s x => insertRow s tb (g s x)) s).varProduced =
          s.varProduced ∧
      (xs.foldl (fun s x => insertRow s tb (g s x)) s).hbProduced =
          s.hbProduced := by
  intro xs
  induction xs with
  | nil => intro s; exact ⟨rfl, rfl, rfl, rfl, rfl, rfl, rfl, rfl⟩
  | cons x xs ih => intro s; simpa using ih (insertRow s tb (g s x))

/-- Inserting prerequisite rows does not touch any other table. -/
theorem insertPrereqs_tableRows_other (t : String)
    (h : "prerequisite_events" ≠ t) (s : ParserState) (ps : List JValue) :
    (insertPrereqs s ps).db.tableRows t = s.db.tableRows t :=
  foldl_insert_tableRows_other _ _ h _ ps s

/-- The prerequisite rows inserted for one trace, in list order. -/
theorem insertPrereqs_tableRows_self (s : ParserState) (ps : List JValue) :
    (insertPrereqs s ps).db.tableRows "prerequisite_events" =
      s.db.tableRows "prerequisite_events" ++
        ps.map (fun p =>
          [("prerequisite_event", Col.jv p),
           ("consequent_event", Col.nat s.event_id)]) :=
  foldl_insert_tableRows_self _
    (fun s p =>
      [("prerequisite_event", Col.jv p),
       ("consequent_event", Col.nat s.event_id)])
    (fun _ _ _ _ => rfl) ps s

theorem insertPrereqs_typeCatalog (s : ParserState) (ps : List JValue) :
    (insertPrereqs s ps).db.typeCatalog = s.db.typeCatalog :=
  foldl_insert_typeCatalog _ _ ps s

theorem insertPrereqs_ids (s : ParserState) (ps : List JValue) :
    (insertPrereqs s ps).execution_id = s.execution_id ∧
    (insertPrereqs s ps).event_id = s.event_id ∧
    (insertPrereqs s ps).variable_id = s.variable_id ∧
    (insertPrereqs s ps).heartbeat_id = s.heartbeat_id ∧
    (insertPrereqs s ps).execProduced = s.execProduced ∧
    (insertPrereqs s ps).eventProduced = s.eventProduced ∧
    (insertPrereqs s ps).varProduced = s.varProduced ∧
    (insertPrereqs s ps).hbProduced = s.hbProduced :=
  foldl_insert_ids _ _ ps s

theorem insertCpuloads_tableRows_other (t : String)
    (h : "cpuload" ≠ t) (s : ParserState) (cs : List JValue) :
    (insertCpuloads s cs).db.tableRows t = s.db.tableRows t :=
  foldl_insert_tableRows_other _ _ h _ cs s

/-- The cpuload rows inserted for one heartbeat, in list order. -/
theorem insertCpuloads_tableRows_self (s : ParserState) (cs : List JValue) :
    (insertCpuloads s cs).db.tableRows "cpuload" =
      s.db.tableRows "cpuload" ++
        cs.map (fun c =>
          [("heartbeat_id", Col.nat s.heartbeat_id),
           ("val", Col.jv c)]) :=
  foldl_insert_tableRows_self _
    (fun s c =>
      [("heartbeat_id", Col.nat s.heartbeat_id),
       ("val", Col.jv c)])
    (fun _ _ _ _ => rfl) cs s

theorem insertCpuloads_ids (s : ParserState) (cs : List JValue) :
    (insertCpuloads s cs).execution_id = s.execution_id ∧
    (insertCpuloads s cs).event_id = s.event_id ∧
    (insertCpuloads s cs).variable_id = s.variable_id ∧
    (insertCpuloads s cs).heartbeat_id = s.heartbeat_id ∧
    (insertCpuloads s cs).execProduced = s.execProduced ∧
    (insertCpuloads s cs).eventProduced = s.eventProduced ∧
    (insertCpuloads s cs).varProduced = s.varProduced ∧
    (insertCpuloads s cs).hbProduced = s.hbProduced :=
  foldl_insert_ids _ _ cs s

theorem insertCpuloads_heartbeat_id (s : ParserState) (cs : List JValue) :
    (insertCpuloads s cs).heartbeat_id = s.heartbeat_id :=
  (foldl_insert_ids _ _ cs s).2.2.2.1

theorem insertCpuloads_hbProduced (s : ParserState) (cs : List JValue) :
    (insertCpuloads s cs).hbProduced = s.hbProduced :=
  (foldl_insert_ids _ _ cs s).2.2.2.2.2.2.2

/-! Concrete fixtures used by witnesses and counterexamples. -/

/-- A fixed external type catalog holding the single type name int with
type_id 1. -/
def catInt : List (JValue × Int) := [(JValue.str "int", 1)]

/-- An empty storage carrying that catalog. -/
def dbEmpty : DB := ⟨catInt, []⟩

/-- A freshly constructed parser over the empty storage (the
src/mal_profiler __init__, every counter 0). -/
def stFresh : ParserState := ProfilerObjectParser_init dbEmpty

/-! The claims. -/

/-- C7 (counterexample): a trace whose state token is an array — the
decoded form of {"source":"trace","state":[],"prereq":[7]} — makes the
state lookup raise TypeError (an unhashable dict key), FAILING the
record: the mal_execution row is already emitted, but no profiler_event
row and no prerequisite edge is, while the claim says an unrecognized
token maps to null without failing the record. -/
theorem claim_C7_counterexample :
    (ProfilerObjectParser_parse_trace stFresh
      [("source", JValue.str "trace"), ("state", JValue.arr []),
       ("prereq", JValue.arr [JValue.num 7])]).2 =
      some PyErr.typeError ∧
    (ProfilerObjectParser_parse_trace stFresh
      [("source", JValue.str "trace"), ("state", JValue.arr []),
       ("prereq", JValue.arr [JValue.num 7])]).1.db.tableRows
      "profiler_event" = [] ∧
    ((ProfilerObjectParser_parse_trace stFresh
      [("source", JValue.str "trace"), ("state", JValue.arr []),
       ("prereq", JValue.arr [JValue.num 7])]).1.db.tableRows
      "mal_execution").length = 1 ∧
    (ProfilerObjectParser_parse_trace stFresh
      [("source", JValue.str "trace"), ("state", JValue.arr []),
       ("prereq", JValue.arr [JValue.num 7])]).1.db.tableRows
      "prerequisite_events" = [] :=
  ⟨rfl, rfl, rfl, rfl⟩

/-- C7 (amended): the state token is mapped through exactly the
enumeration start to 0, done to 1, pause to 2; any other HASHABLE
token, or an absent one, maps to null, and the emitted profiler_event
row carries the mapped value without the record failing on it; but a
list- or dict-valued token makes the dictionary lookup raise TypeError,
failing the record after the Execution row and before the Event row. -/
theorem claim_C7_state_token_enumeration :
    (statesGet (some (JValue.str "start")) = Except.ok (some 0) ∧
     statesGet (some (JValue.str "done")) = Except.ok (some 1) ∧
     statesGet (some (JValue.str "pause")) = Except.ok (some 2) ∧
     statesGet none = Except.ok none ∧
     (∀ v : Option JValue,
       statesGet v = Except.ok none ∨
       (v = some (JValue.str "start") ∧ statesGet v = Except.ok (some 0)) ∨
       (v = some (JValue.str "done") ∧ statesGet v = Except.ok (some 1)) ∨
       (v = some (JValue.str "pause") ∧ statesGet v = Except.ok (some 2)) ∨
       statesGet v = Except.error PyErr.typeError)) ∧
    (∀ (s : ParserState) (j : PyDict) (st : Option Nat),
      statesGet (pyGet j "state") = Except.ok st →
      (traceHead s j).2 = none ∧
      (ProfilerObjectParser_parse_trace s j).1.db.tableRows
          "profiler_event" =
        s.db.tableRows "profiler_event" ++
          [[("mal_execution_id", Col.nat (s.execution_id + 1)),
            ("pc", ofOpt (pyGet j "pc")),
            ("execution_state", ofOptNat st),
            ("clk", ofOpt (pyGet j "clk")),
            ("ctime", ofOpt (pyGet j "ctime")),
            ("thread", ofOpt (pyGet j "thread")),
            ("mal_function", ofOpt (pyGet j "function")),
            ("usec", ofOpt (pyGet j "usec")),
            ("rss", ofOpt (pyGet j "rss")),
            ("type_size", ofOpt (pyGet j "size")),
            ("long_statement", ofOpt (pyGet j "stmt")),
            ("short_statement", ofOpt (pyGet j "short"))]]) ∧
    (∀ (s : ParserState) (j : PyDict),
      statesGet (pyGet j "state") = Except.error PyErr.typeError →
      ProfilerObjectParser_parse_trace s j =
        (traceExec s j, some PyErr.typeError)) := by
  refine ⟨⟨rfl, rfl, rfl, rfl, ?_⟩, ?_, ?_⟩
  · intro v
    rw [statesGet.eq_def]
    split
    · exact Or.inr (Or.inl ⟨rfl, rfl⟩)
    · exact Or.inr (Or.inr (Or.inl ⟨rfl, rfl⟩))
    · exact Or.inr (Or.inr (Or.inr (Or.inl ⟨rfl, rfl⟩)))
    · exact Or.inr (Or.inr (Or.inr (Or.inr rfl)))
    · exact Or.inr (Or.inr (Or.inr (Or.inr rfl)))
    · exact Or.inl rfl
  · intro s j st hstate
    constructor
    · unfold traceHead
      rw [hstate]
    · unfold ProfilerObjectParser_parse_trace
      rw [traceHead_ok s j st hstate]
      dsimp only
      have hrows : (traceEvent (traceExec s j) j st).db.tableRows
          "profiler_event" =
          s.db.tableRows "profiler_event" ++
            [[("mal_execution_id", Col.nat (s.execution_id + 1)),
              ("pc", ofOpt (pyGet j "pc")),
              ("execution_state", ofOptNat st),
              ("clk", ofOpt (pyGet j "clk")),
              ("ctime", ofOpt (pyGet j "ctime")),
              ("thread", ofOpt (pyGet j "thread")),
              ("mal_function", ofOpt (pyGet j "function")),
              ("usec", ofOpt (pyGet j "usec")),
              ("rss", ofOpt (pyGet j "rss")),
              ("type_size", ofOpt (pyGet j "size")),
              ("long_statement", ofOpt (pyGet j "stmt")),
              ("short_statement", ofOpt (pyGet j "short"))]] := by
        rw [traceEvent_profiler_event, (traceExec_ids s j).1,
          traceExec_tableRows_other _ (by decide)]
      split
      · exact hrows
      · rw [traceVarPhase_tableRows_other _ (by decide) (by decide)
          (by decide), insertPrereqs_tableRows_other _ (by decide)]
        exact hrows
  · intro s j hstate
    unfold ProfilerObjectParser_parse_trace
    rw [traceHead_err s j PyErr.typeError hstate]

/-- Witness for the amended C7: the trace with an absent state token
(mapped to null, record processed) applied through part 2, and the
array-valued state token of the counterexample scenario through
part 3. -/
theorem claim_C7_state_token_enumeration_witness :
    (traceHead stFresh [("source", JValue.str "trace")]).2 = none ∧
    ProfilerObjectParser_parse_trace stFresh
        [("source", JValue.str "trace"), ("state", JValue.arr [])] =
      (traceExec stFresh
        [("source", JValue.str "trace"), ("state", JValue.arr [])],
       some PyErr.typeError) := by
  refine ⟨(claim_C7_state_token_enumeration.2.1 stFresh
    [("source", JValue.str "trace")] none rfl).1, ?_⟩
  exact claim_C7_state_token_enumeration.2.2 stFresh
    [("source", JValue.str "trace"), ("state", JValue.arr [])] rfl

/-- C9: for every id in a trace record's prerequisite list, exactly one
prerequisite_events row is emitted, in list order, whose prerequisite is
that id as given and whose consequent is the event id just allocated for
this trace (the seed event counter plus one); the ids are arbitrary
values — no check that a prerequisite was ever seen is involved.  The
state token is assumed to map (spec section 6: it is a string), since a
list- or dict-valued token fails the record before the prereq loop. -/
theorem claim_C9_prerequisite_edges (s : ParserState) (j : PyDict)
    (ps : List JValue) (st : Option Nat)
    (hstate : statesGet (pyGet j "state") = Except.ok st)
    (h : pyGet j "prereq" = some (JValue.arr ps)) :
    (ProfilerObjectParser_parse_trace s j).1.db.tableRows
        "prerequisite_events" =
      s.db.tableRows "prerequisite_events" ++
        ps.map (fun p =>
          [("prerequisite_event", Col.jv p),
           ("consequent_event", Col.nat (s.event_id + 1))]) := by
  unfold ProfilerObjectParser_parse_trace
  rw [traceHead_ok s j st hstate]
  dsimp only
  rw [h]
  show (traceVarPhase (insertPrereqs (traceEvent (traceExec s j) j st) ps)
      j).1.db.tableRows "prerequisite_events" = _
  rw [traceVarPhase_tableRows_other _ (by decide) (by decide) (by decide),
      insertPrereqs_tableRows_self,
      traceEvent_tableRows_other _ (by decide),
      traceExec_tableRows_other _ (by decide)]
  have he : (traceEvent (traceExec s j) j st).event_id = s.event_id + 1 :=
    (traceExec_ids s j).2.1
  simp only [he]

/-- Witness for C9: a trace whose prerequisite list holds the ids 7 and
9, neither of which was ever seen, emits exactly the two edges with
consequent 1. -/
theorem claim_C9_prerequisite_edges_witness :
    (ProfilerObjectParser_parse_trace stFresh
        [("source", JValue.str "trace"),
         ("prereq", JValue.arr [JValue.num 7, JValue.num 9])]).1.db.tableRows
        "prerequisite_events" =
      [[("prerequisite_event", Col.jv (JValue.num 7)),
        ("consequent_event", Col.nat 1)],
       [("prerequisite_event", Col.jv (JValue.num 9)),
        ("consequent_event", Col.nat 1)]] := by
  have h := claim_C9_prerequisite_edges stFresh
    [("source", JValue.str "trace"),
     ("prereq", JValue.arr [JValue.num 7, JValue.num 9])]
    [JValue.num 7, JValue.num 9] none (by rfl) rfl
  simpa using h

/-- C8: processing a heartbeat record with K cpu-load samples allocates
one heartbeat id (the counter moves from h to h+1 and the ghost log
records exactly that one id), emits exactly one heartbeat row, and then
exactly K cpuload rows, one per value in list order, all referencing the
newly allocated heartbeat id.  The five scalar data fields are assumed
hashable (spec section 6: they are numbers), since a list- or
dict-valued one makes the set comprehension raise TypeError. -/
theorem claim_C8_heartbeat_fanout (s : ParserState) (j : PyDict)
    (cs : List JValue) (hhash : hbFieldsHashable j = true)
    (h : pyGet j "cpuload" = some (JValue.arr cs)) :
    (ProfilerObjectParser_parse_heartbeat s j).2 = none ∧
    (ProfilerObjectParser_parse_heartbeat s j).1.heartbeat_id =
      s.heartbeat_id + 1 ∧
    (ProfilerObjectParser_parse_heartbeat s j).1.hbProduced =
      s.hbProduced ++ [s.heartbeat_id + 1] ∧
    (ProfilerObjectParser_parse_heartbeat s j).1.db.tableRows "heartbeat" =
      s.db.tableRows "heartbeat" ++
        [[("server_session", ofOpt (pyGet j "server_session")),
          ("clk", ofOpt (pyGet j "clk")),
          ("ctime", ofOpt (pyGet j "ctime")),
          ("rss", ofOpt (pyGet j "rss")),
          ("nvcsw", ofOpt (pyGet j "nvcsw"))]] ∧
    (ProfilerObjectParser_parse_heartbeat s j).1.db.tableRows "cpuload" =
      s.db.tableRows "cpuload" ++
        cs.map (fun c =>
          [("heartbeat_id", Col.nat (s.heartbeat_id + 1)),
           ("val", Col.jv c)]) := by
  have hitem : pyGetItem (JValue.obj j) "cpuload" =
      Except.ok (JValue.arr cs) := by
    simp [pyGetItem, h]
  unfold ProfilerObjectParser_parse_heartbeat
  rw [if_pos hhash, hitem]
  dsimp only [pyIterV]
  refine ⟨rfl, ?_, ?_, ?_, ?_⟩
  · rw [insertCpuloads_heartbeat_id]
    simp
  · rw [insertCpuloads_hbProduced]
    simp [allocHeartbeat]
  · rw [insertCpuloads_tableRows_other "heartbeat" (by decide)]
    simp
  · rw [insertCpuloads_tableRows_self]
    simp

/-- Witness for C8: a heartbeat with three samples yields one heartbeat
row and three cpuload rows referencing heartbeat id 1. -/
theorem claim_C8_heartbeat_fanout_witness :
    (ProfilerObjectParser_parse_heartbeat stFresh
        [("source", JValue.str "heartbeat"),
         ("cpuload",
          JValue.arr [JValue.num 10, JValue.num 20, JValue.num 30])]).2 =
      none ∧
    (ProfilerObjectParser_parse_heartbeat stFresh
        [("source", JValue.str "heartbeat"),
         ("cpuload",
          JValue.arr [JValue.num 10, JValue.num 20,
            JValue.num 30])]).1.db.tableRows "cpuload" =
      [[("heartbeat_id", Col.nat 1), ("val", Col.jv (JValue.num 10))],
       [("heartbeat_id", Col.nat 1), ("val", Col.jv (JValue.num 20))],
       [("heartbeat_id", Col.nat 1), ("val", Col.jv (JValue.num 30))]] := by
  have h := claim_C8_heartbeat_fanout stFresh
    [("source", JValue.str "heartbeat"),
     ("cpuload", JValue.arr [JValue.num 10, JValue.num 20, JValue.num 30])]
    [JValue.num 10, JValue.num 20, JValue.num 30] rfl rfl
  exact ⟨h.1, by simpa using h.2.2.2.2⟩

/-- An argument entry with an unknown type name: variable u of type zzz
(zzz is not in the catalog). -/
def varU : JValue := JValue.obj
  [("name", JValue.str "u"), ("type", JValue.str "zzz")]

/-- An argument entry of known type: variable x of type int, list
index 0. -/
def varX1 : JValue := JValue.obj
  [("name", JValue.str "x"), ("type", JValue.str "int"),
   ("index", JValue.num 0)]

/-- A second reference to the variable name x, list index 1. -/
def varX2 : JValue := JValue.obj
  [("name", JValue.str "x"), ("type", JValue.str "int"),
   ("index", JValue.num 1)]

/-- A trace whose only argument has an unrecognized type. -/
def traceC3 : PyDict :=
  [("source", JValue.str "trace"), ("prereq", JValue.arr []),
   ("arg", JValue.arr [varU])]

/-- A trace that references the name x twice, after one unknown-type
argument consumed a variable id. -/
def traceC4 : PyDict :=
  [("source", JValue.str "trace"), ("prereq", JValue.arr []),
   ("arg", JValue.arr [varU, varX1, varX2])]

/-- C3 (evidence for the code bug): on a fresh parser, a trace whose one
argument has an unrecognized type emits no mal_variable row and no list
entry and raises nothing — but the variable-id counter, 0 before, is 1
afterwards and the ghost log shows the id 1 was produced: the allocator
state is NOT left as it was, one id is consumed, contrary to the claim
(and to spec section 4.2, which the increment-before-type-check of
_parse_trace violates). -/
theorem claim_C3_unknown_type_consumes_id :
    stFresh.variable_id = 0 ∧
    (ProfilerObjectParser_parse_trace stFresh traceC3).2 = none ∧
    (ProfilerObjectParser_parse_trace stFresh traceC3).1.variable_id = 1 ∧
    (ProfilerObjectParser_parse_trace stFresh traceC3).1.varProduced =
      [1] ∧
    (ProfilerObjectParser_parse_trace stFresh traceC3).1.db.tableRows
      "mal_variable" = [] ∧
    (ProfilerObjectParser_parse_trace stFresh traceC3).1.db.tableRows
      "argument_variable_list" = [] ∧
    (ProfilerObjectParser_parse_trace stFresh traceC3).1.db.tableRows
      "return_variable_list" = [] :=
  ⟨rfl, rfl, rfl, rfl, rfl, rfl, rfl⟩

/-- C4 (evidence for the code bug): in one session in which an
unknown-type argument has already consumed variable id 1, the two
references to the variable name x resolve to DIFFERENT ids: the first
resolution allocates counter value 2 for the row it inserts, but the
storage-assigned surrogate id of that one row is 1, so the second
resolution returns 1.  Exactly one mal_variable row exists, yet the two
emitted argument list entries reference variable ids 2 and 1. -/
theorem claim_C4_dedup_returns_different_ids :
    (ProfilerObjectParser_parse_trace stFresh traceC4).2 = none ∧
    ((ProfilerObjectParser_parse_trace stFresh traceC4).1.db.tableRows
      "mal_variable").length = 1 ∧
    (ProfilerObjectParser_parse_trace stFresh traceC4).1.db.tableRows
      "argument_variable_list" =
      [[("variable_list_index", Col.jv (JValue.num 0)),
        ("event_id", Col.nat 1),
        ("variable_id", Col.nat 2)],
       [("variable_list_index", Col.jv (JValue.num 1)),
        ("event_id", Col.nat 1),
        ("variable_id", Col.nat 1)]] ∧
    (2 : Nat) ≠ 1 :=
  ⟨rfl, rfl, rfl, by decide⟩

/-- C2 (counterexample): the decoded form of the well-formed input
string consisting of a JSON object with no source key.  parse_object
does not return normally on it: the None branch logs
json_object['source'], which raises KeyError outside any handler. -/
theorem claim_C2_counterexample :
    ProfilerObjectParser_parse_object stFresh
        (some (JValue.obj [("tag", JValue.num 1)])) =
      (stFresh, some PyErr.keyError) := rfl

/-- C2 (amended): parse_object returns normally, dropping the record and
letting the stream continue, when the text is malformed, when the
discriminator is present with value null, and when it is present with
any HASHABLE value other than trace and heartbeat; but an ABSENT
discriminator raises KeyError (from the logging statement itself), a
non-object record raises AttributeError, and a list- or dict-valued
discriminator raises TypeError from hashing the dispatcher key, which
the except KeyError handler does not catch — so parse_object does not
return normally on every input. -/
theorem claim_C2_amended_drop_and_continue :
    (∀ s : ParserState,
      ProfilerObjectParser_parse_object s none = (s, none)) ∧
    (∀ (s : ParserState) (fs : PyDict),
      pyGet fs "source" = some JValue.null →
      ProfilerObjectParser_parse_object s (some (JValue.obj fs)) =
        (s, none)) ∧
    (∀ (s : ParserState) (fs : PyDict) (src : JValue),
      pyGet fs "source" = some src →
      hashable src = true →
      src ≠ JValue.str "trace" →
      src ≠ JValue.str "heartbeat" →
      src ≠ JValue.null →
      ProfilerObjectParser_parse_object s (some (JValue.obj fs)) =
        (s, none)) ∧
    (∀ (s : ParserState) (fs : PyDict) (src : JValue),
      pyGet fs "source" = some src →
      hashable src = false →
      ProfilerObjectParser_parse_object s (some (JValue.obj fs)) =
        (s, some PyErr.typeError)) ∧
    (∀ (s : ParserState) (fs : PyDict),
      pyGet fs "source" = none →
      ProfilerObjectParser_parse_object s (some (JValue.obj fs)) =
        (s, some PyErr.keyError)) ∧
    (∀ (s : ParserState) (n : Int),
      ProfilerObjectParser_parse_object s (some (JValue.num n)) =
        (s, some PyErr.attributeError)) := by
  refine ⟨fun s => rfl, ?_, ?_, ?_, ?_, fun s n => rfl⟩
  · intro s fs h
    simp [ProfilerObjectParser_parse_object, pyGetItem, h]
  · intro s fs src h hh hs1 hs2 hs0
    unfold ProfilerObjectParser_parse_object
    dsimp only
    rw [h]
    rcases src with _ | b | n | s0 | xs | fs2
    · exact absurd rfl hs0
    · rfl
    · rfl
    · by_cases h1 : s0 = "trace"
      · exact absurd (by rw [h1]) hs1
      · by_cases h2 : s0 = "heartbeat"
        · exact absurd (by rw [h2]) hs2
        · split
          all_goals simp_all
    · simp [hashable] at hh
    · simp [hashable] at hh
  · intro s fs src h hh
    unfold ProfilerObjectParser_parse_object
    dsimp only
    rw [h]
    rcases src with _ | b | n | s0 | xs | fs2
    · simp [hashable] at hh
    · simp [hashable] at hh
    · simp [hashable] at hh
    · simp [hashable] at hh
    · rfl
    · rfl
  · intro s fs h
    simp [ProfilerObjectParser_parse_object, pyGetItem, h]

/-- Witness for the amended C2, at five concrete inputs: malformed
text, a record with source null, a record with source 5, a record with
source [], and the bare number 5. -/
theorem claim_C2_amended_witness :
    ProfilerObjectParser_parse_object stFresh none = (stFresh, none) ∧
    ProfilerObjectParser_parse_object stFresh
        (some (JValue.obj [("source", JValue.null)])) = (stFresh, none) ∧
    ProfilerObjectParser_parse_object stFresh
        (some (JValue.obj [("source", JValue.num 5)])) = (stFresh, none) ∧
    ProfilerObjectParser_parse_object stFresh
        (some (JValue.obj [("source", JValue.arr [])])) =
      (stFresh, some PyErr.typeError) ∧
    ProfilerObjectParser_parse_object stFresh
        (some (JValue.num 5)) = (stFresh, some PyErr.attributeError) := by
  have h := claim_C2_amended_drop_and_continue
  refine ⟨h.1 stFresh, h.2.1 stFresh _ rfl, ?_, ?_, h.2.2.2.2.2 stFresh 5⟩
  · exact h.2.2.1 stFresh _ (JValue.num 5) rfl rfl (by simp) (by simp)
      (by simp)
  · exact h.2.2.2.1 stFresh _ (JValue.arr []) rfl rfl

/-- A heartbeat record with an empty sample list. -/
def hbEmpty : PyDict :=
  [("source", JValue.str "heartbeat"), ("cpuload", JValue.arr [])]

/-- A trace with the single well-typed argument x. -/
def traceX : PyDict :=
  [("source", JValue.str "trace"), ("prereq", JValue.arr []),
   ("arg", JValue.arr [varX1])]

/-- C5 (counterexample): on a fresh parser, a heartbeat allocates
heartbeat id 1 and emits one heartbeat row, but that row has NO
heartbeat_id column; likewise the trace emitting one variable row
allocates variable id 1, but the emitted mal_variable row has NO
variable_id column.  The emitted rows do not contain the surrogate ids
allocated for them. -/
theorem claim_C5_counterexample :
    (ProfilerObjectParser_parse_heartbeat stFresh hbEmpty).1.heartbeat_id =
      1 ∧
    ((ProfilerObjectParser_parse_heartbeat stFresh
      hbEmpty).1.db.tableRows "heartbeat").length = 1 ∧
    (((ProfilerObjectParser_parse_heartbeat stFresh
      hbEmpty).1.db.tableRows "heartbeat").head?.bind
        (fun r => rowGet r "heartbeat_id")) = none ∧
    (ProfilerObjectParser_parse_trace stFresh traceX).1.varProduced =
      [1] ∧
    ((ProfilerObjectParser_parse_trace stFresh traceX).1.db.tableRows
      "mal_variable").length = 1 ∧
    (((ProfilerObjectParser_parse_trace stFresh traceX).1.db.tableRows
      "mal_variable").head?.bind
        (fun r => rowGet r "variable_id")) = none :=
  ⟨rfl, rfl, rfl, rfl, rfl, rfl⟩

/-- C5 (amended): every emitted heartbeat row (emitted whenever the
five scalar data fields are hashable, i.e. not lists or dicts) consists
of exactly the fields server_session, clk, ctime, rss and nvcsw, each
taken from the correspondingly named input field, WITHOUT the allocated
surrogate id; and every mal_variable row emitted for a first-seen variable of
resolvable type consists of exactly the fields of the source literal —
name, execution id, alias, resolved type id, is_persistent as
kind == persistent, bid, count, size, seqbase, hghbase, eol as
eol == 0 — likewise WITHOUT the allocated surrogate id, which appears
only in the rows that reference it. -/
theorem claim_C5_amended_rows_lack_surrogate_id :
    (∀ (s : ParserState) (j : PyDict),
      hbFieldsHashable j = true →
      (ProfilerObjectParser_parse_heartbeat s j).1.db.tableRows
          "heartbeat" =
        s.db.tableRows "heartbeat" ++
          [[("server_session", ofOpt (pyGet j "server_session")),
            ("clk", ofOpt (pyGet j "clk")),
            ("ctime", ofOpt (pyGet j "ctime")),
            ("rss", ofOpt (pyGet j "rss")),
            ("nvcsw", ofOpt (pyGet j "nvcsw"))]] ∧
      rowGet
        [("server_session", ofOpt (pyGet j "server_session")),
         ("clk", ofOpt (pyGet j "clk")),
         ("ctime", ofOpt (pyGet j "ctime")),
         ("rss", ofOpt (pyGet j "rss")),
         ("nvcsw", ofOpt (pyGet j "nvcsw"))] "heartbeat_id" = none) ∧
    (∀ (tbl : String) (s : ParserState) (fs : PyDict) (nv tv : JValue)
        (tid : Int),
      tbl ≠ "mal_variable" →
      pyGet fs "name" = some nv →
      s.db.lookupVariable nv = none →
      pyGet fs "type" = some tv →
      s.db.lookupType tv = some tid →
      (processVar tbl s (JValue.obj fs)).2 = none ∧
      (processVar tbl s (JValue.obj fs)).1.db.tableRows "mal_variable" =
        s.db.tableRows "mal_variable" ++
          [[("name", Col.jv nv),
            ("mal_execution_id", Col.nat s.execution_id),
            ("alias", ofOpt (pyGet fs "alias")),
            ("type_id", Col.int tid),
            ("is_persistent",
             Col.bool (pyGet fs "kind" == some (JValue.str "persistent"))),
            ("bid", ofOpt (pyGet fs "bid")),
            ("var_count", ofOpt (pyGet fs "count")),
            ("var_size", ofOpt (pyGet fs "size")),
            ("seqbase", ofOpt (pyGet fs "seqbase")),
            ("hghbase", ofOpt (pyGet fs "hghbase")),
            ("eol", Col.bool (pyEqZero (pyGet fs "eol")))]] ∧
      rowGet
        [("name", Col.jv nv),
         ("mal_execution_id", Col.nat s.execution_id),
         ("alias", ofOpt (pyGet fs "alias")),
         ("type_id", Col.int tid),
         ("is_persistent",
          Col.bool (pyGet fs "kind" == some (JValue.str "persistent"))),
         ("bid", ofOpt (pyGet fs "bid")),
         ("var_count", ofOpt (pyGet fs "count")),
         ("var_size", ofOpt (pyGet fs "size")),
         ("seqbase", ofOpt (pyGet fs "seqbase")),
         ("hghbase", ofOpt (pyGet fs "hghbase")),
         ("eol", Col.bool (pyEqZero (pyGet fs "eol")))] "variable_id" =
        none) := by
  constructor
  · intro s j hh
    refine ⟨?_, rfl⟩
    unfold ProfilerObjectParser_parse_heartbeat
    rw [if_pos hh]
    dsimp only
    split
    · simp
    · split
      · simp
      · rw [insertCpuloads_tableRows_other "heartbeat" (by decide)]
        simp
  · intro tbl s fs nv tv tid htbl hname hlook htype htid
    have hn : pyGetItem (JValue.obj fs) "name" = Except.ok nv := by
      simp [pyGetItem, hname]
    have ht : pyGetItem (JValue.obj fs) "type" = Except.ok tv := by
      simp [pyGetItem, htype]
    unfold processVar
    rw [hn]
    dsimp only
    rw [hlook]
    dsimp only
    rw [ht]
    dsimp only
    rw [allocVariable_db, htid]
    dsimp only
    refine ⟨rfl, ?_, rfl⟩
    simp [variableRow, jvGet, hname, htbl, ofOpt]

/-- Witness for the amended C5, at the concrete heartbeat and variable
of the counterexample scenario. -/
theorem claim_C5_amended_witness :
    (ProfilerObjectParser_parse_heartbeat stFresh hbEmpty).1.db.tableRows
        "heartbeat" =
      [[("server_session", Col.none), ("clk", Col.none),
        ("ctime", Col.none), ("rss", Col.none), ("nvcsw", Col.none)]] ∧
    (processVar "argument_variable_list" stFresh varX1).1.db.tableRows
        "mal_variable" =
      [[("name", Col.jv (JValue.str "x")),
        ("mal_execution_id", Col.nat 0),
        ("alias", Col.none),
        ("type_id", Col.int 1),
        ("is_persistent", Col.bool false),
        ("bid", Col.none),
        ("var_count", Col.none),
        ("var_size", Col.none),
        ("seqbase", Col.none),
        ("hghbase", Col.none),
        ("eol", Col.bool false)]] := by
  have h := claim_C5_amended_rows_lack_surrogate_id
  have h1 := (h.1 stFresh hbEmpty rfl).1
  have h2 := (h.2 "argument_variable_list" stFresh
    [("name", JValue.str "x"), ("type", JValue.str "int"),
     ("index", JValue.num 0)]
    (JValue.str "x") (JValue.str "int") 1
    (by decide) rfl rfl rfl rfl).2.1
  exact ⟨by simpa using h1, by simpa [varX1] using h2⟩

/-- A trace whose only argument entry lacks the name key: its
subscription raises KeyError inside _parse_trace. -/
def trNoName : PyDict :=
  [("source", JValue.str "trace"), ("prereq", JValue.arr []),
   ("arg", JValue.arr [JValue.obj [("type", JValue.str "int")]])]

/-- A trace record with no prereq field: iterating None raises
TypeError inside _parse_trace. -/
def trNoPrereq : PyDict :=
  [("source", JValue.str "trace")]

/-- The KeyError handler of parse_object, applied to the result of a
normalizer. -/
theorem catchKeyError_of_eq (r : ParserState × Option PyErr) (e : PyErr)
    (h : r.2 = some e) :
    catchKeyError r =
      if e = PyErr.keyError then (r.1, none) else (r.1, some e) := by
  obtain ⟨s1, e1⟩ := r
  simp only at h
  subst h
  cases e <;> simp [catchKeyError]

/-- C10: a KeyError raised inside a normalizer of a record whose
discriminator is trace or heartbeat is caught by parse_object, which
returns normally with the state as mutated so far; an exception of any
other kind propagates to the caller.  Concretely: a trace whose variable
entry lacks the name key raises KeyError and parse_object returns
normally, while a trace without a prereq list raises TypeError, which
parse_object propagates. -/
theorem claim_C10_keyerror_caught_others_propagate :
    (∀ (s : ParserState) (fs : PyDict),
      pyGet fs "source" = some (JValue.str "trace") →
      (ProfilerObjectParser_parse_trace s fs).2 = some PyErr.keyError →
      ProfilerObjectParser_parse_object s (some (JValue.obj fs)) =
        ((ProfilerObjectParser_parse_trace s fs).1, none)) ∧
    (∀ (s : ParserState) (fs : PyDict) (e : PyErr),
      pyGet fs "source" = some (JValue.str "trace") →
      (ProfilerObjectParser_parse_trace s fs).2 = some e →
      e ≠ PyErr.keyError →
      ProfilerObjectParser_parse_object s (some (JValue.obj fs)) =
        ((ProfilerObjectParser_parse_trace s fs).1, some e)) ∧
    (∀ (s : ParserState) (fs : PyDict),
      pyGet fs "source" = some (JValue.str "heartbeat") →
      (ProfilerObjectParser_parse_heartbeat s fs).2 =
        some PyErr.keyError →
      ProfilerObjectParser_parse_object s (some (JValue.obj fs)) =
        ((ProfilerObjectParser_parse_heartbeat s fs).1, none)) ∧
    (∀ (s : ParserState) (fs : PyDict) (e : PyErr),
      pyGet fs "source" = some (JValue.str "heartbeat") →
      (ProfilerObjectParser_parse_heartbeat s fs).2 = some e →
      e ≠ PyErr.keyError →
      ProfilerObjectParser_parse_object s (some (JValue.obj fs)) =
        ((ProfilerObjectParser_parse_heartbeat s fs).1, some e)) ∧
    (ProfilerObjectParser_parse_trace stFresh trNoName).2 =
      some PyErr.keyError ∧
    (ProfilerObjectParser_parse_object stFresh
      (some (JValue.obj trNoName))).2 = none ∧
    (ProfilerObjectParser_parse_trace stFresh trNoPrereq).2 =
      some PyErr.typeError ∧
    (ProfilerObjectParser_parse_object stFresh
      (some (JValue.obj trNoPrereq))).2 = some PyErr.typeError := by
  refine ⟨?_, ?_, ?_, ?_, rfl, rfl, rfl, rfl⟩
  · intro s fs h1 h2
    unfold ProfilerObjectParser_parse_object
    dsimp only
    rw [h1]
    show catchKeyError (ProfilerObjectParser_parse_trace s fs) = _
    rw [catchKeyError_of_eq _ _ h2]
    simp
  · intro s fs e h1 h2 hne
    unfold ProfilerObjectParser_parse_object
    dsimp only
    rw [h1]
    show catchKeyError (ProfilerObjectParser_parse_trace s fs) = _
    rw [catchKeyError_of_eq _ _ h2]
    simp [hne]
  · intro s fs h1 h2
    unfold ProfilerObjectParser_parse_object
    dsimp only
    rw [h1]
    show catchKeyError (ProfilerObjectParser_parse_heartbeat s fs) = _
    rw [catchKeyError_of_eq _ _ h2]
    simp
  · intro s fs e h1 h2 hne
    unfold ProfilerObjectParser_parse_object
    dsimp only
    rw [h1]
    show catchKeyError (ProfilerObjectParser_parse_heartbeat s fs) = _
    rw [catchKeyError_of_eq _ _ h2]
    simp [hne]

/-- Witness for C10: the trace whose variable entry lacks the name key —
the KeyError it raises is caught and parse_object returns normally with
the state mutated so far; and the trace without a prereq list, whose
TypeError propagates. -/
theorem claim_C10_witness :
    ProfilerObjectParser_parse_object stFresh
        (some (JValue.obj trNoName)) =
      ((ProfilerObjectParser_parse_trace stFresh trNoName).1, none) ∧
    ProfilerObjectParser_parse_object stFresh
        (some (JValue.obj trNoPrereq)) =
      ((ProfilerObjectParser_parse_trace stFresh trNoPrereq).1,
        some PyErr.typeError) :=
  ⟨claim_C10_keyerror_caught_others_propagate.1 stFresh trNoName rfl rfl,
   claim_C10_keyerror_caught_others_propagate.2.1 stFresh trNoPrereq
     PyErr.typeError rfl rfl (by decide)⟩

/-! Monotonicity of the four id counters (claim C1).  The invariant ties
each counter to its ghost log: starting from seed a, after any run the
log of produced ids is exactly the interval a+1, a+2, ..., counter. -/

def counterOK (a ctr : Nat) (log : List Nat) : Prop :=
  a ≤ ctr ∧ log = List.range' (a + 1) (ctr - a)

/-- The allocator invariant for all four counters at once. -/
def CountersOK (a b c d : Nat) (s : ParserState) : Prop :=
  counterOK a s.execution_id s.execProduced ∧
  counterOK b s.event_id s.eventProduced ∧
  counterOK c s.variable_id s.varProduced ∧
  counterOK d s.heartbeat_id s.hbProduced

theorem counterOK_alloc {a c : Nat} {log : List Nat}
    (h : counterOK a c log) : counterOK a (c + 1) (log ++ [c + 1]) := by
  obtain ⟨h1, h2⟩ := h
  refine ⟨by omega, ?_⟩
  have hc : c + 1 - a = (c - a) + 1 := by omega
  have hv : a + 1 + 1 * (c - a) = c + 1 := by omega
  rw [hc, List.range'_concat, hv, h2]

theorem CountersOK_of_eq {a b c d : Nat} {s s' : ParserState}
    (h1 : s'.execution_id = s.execution_id)
    (h2 : s'.event_id = s.event_id)
    (h3 : s'.variable_id = s.variable_id)
    (h4 : s'.heartbeat_id = s.heartbeat_id)
    (h5 : s'.execProduced = s.execProduced)
    (h6 : s'.eventProduced = s.eventProduced)
    (h7 : s'.varProduced = s.varProduced)
    (h8 : s'.hbProduced = s.hbProduced)
    (h : CountersOK a b c d s) : CountersOK a b c d s' := by
  unfold CountersOK at *
  rw [h1, h2, h3, h4, h5, h6, h7, h8]
  exact h

theorem CountersOK_insertRow {a b c d : Nat} {s : ParserState}
    (t : String) (r : Row) (h : CountersOK a b c d s) :
    CountersOK a b c d (insertRow s t r) := h

theorem CountersOK_allocExecution {a b c d : Nat} {s : ParserState}
    (h : CountersOK a b c d s) : CountersOK a b c d (allocExecution s) :=
  ⟨counterOK_alloc h.1, h.2.1, h.2.2.1, h.2.2.2⟩

theorem CountersOK_allocEvent {a b c d : Nat} {s : ParserState}
    (h : CountersOK a b c d s) : CountersOK a b c d (allocEvent s) :=
  ⟨h.1, counterOK_alloc h.2.1, h.2.2.1, h.2.2.2⟩

theorem CountersOK_allocVariable {a b c d : Nat} {s : ParserState}
    (h : CountersOK a b c d s) : CountersOK a b c d (allocVariable s) :=
  ⟨h.1, h.2.1, counterOK_alloc h.2.2.1, h.2.2.2⟩

theorem CountersOK_allocHeartbeat {a b c d : Nat} {s : ParserState}
    (h : CountersOK a b c d s) : CountersOK a b c d (allocHeartbeat s) :=
  ⟨h.1, h.2.1, h.2.2.1, counterOK_alloc h.2.2.2⟩

theorem CountersOK_insertPrereqs {a b c d : Nat} {s : ParserState}
    (ps : List JValue) (h : CountersOK a b c d s) :
    CountersOK a b c d (insertPrereqs s ps) := by
  have hi := foldl_insert_ids "prerequisite_events"
    (fun s p => [("prerequisite_event", Col.jv p),
                 ("consequent_event", Col.nat s.event_id)]) ps s
  exact CountersOK_of_eq hi.1 hi.2.1 hi.2.2.1 hi.2.2.2.1 hi.2.2.2.2.1
    hi.2.2.2.2.2.1 hi.2.2.2.2.2.2.1 hi.2.2.2.2.2.2.2 h

theorem CountersOK_insertCpuloads {a b c d : Nat} {s : ParserState}
    (cs : List JValue) (h : CountersOK a b c d s) :
    CountersOK a b c d (insertCpuloads s cs) := by
  have hi := foldl_insert_ids "cpuload"
    (fun s c => [("heartbeat_id", Col.nat s.heartbeat_id),
                 ("val", Col.jv c)]) cs s
  exact CountersOK_of_eq hi.1 hi.2.1 hi.2.2.1 hi.2.2.2.1 hi.2.2.2.2.1
    hi.2.2.2.2.2.1 hi.2.2.2.2.2.2.1 hi.2.2.2.2.2.2.2 h

theorem CountersOK_processVar {a b c d : Nat} (tbl : String)
    (s : ParserState) (v : JValue) (h : CountersOK a b c d s) :
    CountersOK a b c d (processVar tbl s v).1 := by
  unfold processVar
  split
  · exact h
  · split
    · exact CountersOK_insertRow _ _ h
    · split
      · exact CountersOK_allocVariable h
      · dsimp only
        split
        · exact CountersOK_allocVariable h
        · exact CountersOK_insertRow _ _
            (CountersOK_insertRow _ _ (CountersOK_allocVariable h))

theorem CountersOK_processVarList {a b c d : Nat} (tbl : String) :
    ∀ (vs : List JValue) (s : ParserState), CountersOK a b c d s →
      CountersOK a b c d (processVarList tbl s vs).1 := by
  intro vs
  induction vs with
  | nil => intro s h; exact h
  | cons v vs ih =>
    intro s h
    unfold processVarList
    split
    next s1 heq =>
      have hv := CountersOK_processVar tbl s v h
      rw [heq] at hv
      exact ih s1 hv
    next s1 e heq =>
      have hv := CountersOK_processVar tbl s v h
      rw [heq] at hv
      exact hv

theorem CountersOK_processField {a b c d : Nat} (s : ParserState)
    (j : PyDict) (field tbl : String) (h : CountersOK a b c d s) :
    CountersOK a b c d (processField s j field tbl).1 := by
  unfold processField
  split
  · exact h
  · exact CountersOK_processVarList tbl _ s h

theorem CountersOK_traceExec {a b c d : Nat} (s : ParserState)
    (j : PyDict) (h : CountersOK a b c d s) :
    CountersOK a b c d (traceExec s j) :=
  CountersOK_insertRow _ _
    (CountersOK_allocEvent (CountersOK_allocExecution h))

theorem CountersOK_traceHead {a b c d : Nat} (s : ParserState)
    (j : PyDict) (h : CountersOK a b c d s) :
    CountersOK a b c d (traceHead s j).1 := by
  unfold traceHead
  split
  · exact CountersOK_traceExec s j h
  · exact CountersOK_insertRow _ _ (CountersOK_traceExec s j h)

theorem CountersOK_traceVarPhase {a b c d : Nat} (s : ParserState)
    (j : PyDict) (h : CountersOK a b c d s) :
    CountersOK a b c d (traceVarPhase s j).1 := by
  unfold traceVarPhase
  split
  next s1 e heq =>
    have hv := CountersOK_processField s j "ret" "return_variable_list" h
    rw [heq] at hv
    exact hv
  next s1 heq =>
    have hv := CountersOK_processField s j "ret" "return_variable_list" h
    rw [heq] at hv
    exact CountersOK_processField s1 j "arg" "argument_variable_list" hv

theorem CountersOK_parse_trace {a b c d : Nat} (s : ParserState)
    (j : PyDict) (h : CountersOK a b c d s) :
    CountersOK a b c d (ProfilerObjectParser_parse_trace s j).1 := by
  unfold ProfilerObjectParser_parse_trace
  split
  next s1 e heq =>
    have h1 := CountersOK_traceHead s j h
    rw [heq] at h1
    exact h1
  next s1 heq =>
    have h1 := CountersOK_traceHead s j h
    rw [heq] at h1
    split
    · exact h1
    · exact CountersOK_traceVarPhase _ j (CountersOK_insertPrereqs _ h1)

theorem CountersOK_parse_heartbeat {a b c d : Nat} (s : ParserState)
    (j : PyDict) (h : CountersOK a b c d s) :
    CountersOK a b c d (ProfilerObjectParser_parse_heartbeat s j).1 := by
  unfold ProfilerObjectParser_parse_heartbeat
  dsimp only
  split
  · split
    · exact CountersOK_insertRow _ _ (CountersOK_allocHeartbeat h)
    · split
      · exact CountersOK_insertRow _ _ (CountersOK_allocHeartbeat h)
      · exact CountersOK_insertCpuloads _
          (CountersOK_insertRow _ _ (CountersOK_allocHeartbeat h))
  · exact CountersOK_allocHeartbeat h

theorem catchKeyError_fst (r : ParserState × Option PyErr) :
    (catchKeyError r).1 = r.1 := by
  unfold catchKeyError
  split
  next => rfl
  next => rfl

theorem CountersOK_parse_object {a b c d : Nat} (s : ParserState)
    (decoded : Option JValue) (h : CountersOK a b c d s) :
    CountersOK a b c d (ProfilerObjectParser_parse_object s decoded).1 := by
  unfold ProfilerObjectParser_parse_object
  split
  · exact h
  · split
    · split
      · split
        · exact h
        · exact h
      · split
        · exact h
        · exact h
      · rw [catchKeyError_fst]
        exact CountersOK_parse_trace s _ h
      · rw [catchKeyError_fst]
        exact CountersOK_parse_heartbeat s _ h
      · exact h
      · exact h
      · exact h
    · exact h

theorem CountersOK_processStream {a b c d : Nat} :
    ∀ (inputs : List (Option JValue)) (s : ParserState),
      CountersOK a b c d s →
      CountersOK a b c d (processStream s inputs) := by
  intro inputs
  induction inputs with
  | nil => intro s h; exact h
  | cons i inputs ih =>
    intro s h
    exact ih _ (CountersOK_parse_object s i h)

theorem counterOK_pairwise {a c : Nat} {log : List Nat}
    (h : counterOK a c log) : List.Pairwise (· < ·) (a :: log) := by
  obtain ⟨h1, h2⟩ := h
  subst h2
  refine List.pairwise_cons.mpr ⟨?_, List.pairwise_lt_range' _ _⟩
  intro x hx
  have := (List.mem_range'_1.mp hx).1
  omega

/-- C1: the parser DatabaseManager.create_parser hands out is seeded
with the four starting limits read from the persisted maxima of the
storage, and over ANY input stream each of the four counters produces a
strictly increasing sequence of ids every one of which is strictly
greater than its seed (this is what Pairwise of the less-than relation
over seed :: produced says), so an id persisted before the session is
never produced again.  The construction with limits is modelled from
the spec, since the mal_analytics parser create_parser instantiates is
not under src/; the increment discipline is that of
src/mal_profiler/profiler_parser.py. -/
theorem claim_C1_seeded_counters_strictly_increase (db0 : DB)
    (inputs : List (Option JValue)) :
    List.Pairwise (· < ·)
      ((DatabaseManager_get_limits db0).1 ::
        (processStream (DatabaseManager_createParser db0)
          inputs).execProduced) ∧
    List.Pairwise (· < ·)
      ((DatabaseManager_get_limits db0).2.1 ::
        (processStream (DatabaseManager_createParser db0)
          inputs).eventProduced) ∧
    List.Pairwise (· < ·)
      ((DatabaseManager_get_limits db0).2.2.1 ::
        (processStream (DatabaseManager_createParser db0)
          inputs).varProduced) ∧
    List.Pairwise (· < ·)
      ((DatabaseManager_get_limits db0).2.2.2 ::
        (processStream (DatabaseManager_createParser db0)
          inputs).hbProduced) := by
  have hinit : CountersOK (DatabaseManager_get_limits db0).1
      (DatabaseManager_get_limits db0).2.1
      (DatabaseManager_get_limits db0).2.2.1
      (DatabaseManager_get_limits db0).2.2.2
      (DatabaseManager_createParser db0) := by
    refine ⟨⟨le_rfl, ?_⟩, ⟨le_rfl, ?_⟩, ⟨le_rfl, ?_⟩, ⟨le_rfl, ?_⟩⟩ <;>
      simp [DatabaseManager_createParser, ProfilerObjectParser_init_limits]
  have hfin := CountersOK_processStream inputs _ hinit
  exact ⟨counterOK_pairwise hfin.1, counterOK_pairwise hfin.2.1,
    counterOK_pairwise hfin.2.2.1, counterOK_pairwise hfin.2.2.2⟩

/-! Unknown-type isolation (claim C6): machinery. -/

@[simp]
theorem optSomeBeq {α : Type} [BEq α] (a b : α) :
    ((some a : Option α) == some b) = (a == b) := rfl

@[simp]
theorem colBeqJv (a b : JValue) :
    ((Col.jv a : Col) == Col.jv b) = (a == b) := rfl

/-- Variable lookup only reads the mal_variable table. -/
theorem lookupVariable_eq_of_tableRows {db db' : DB}
    (h : db.tableRows "mal_variable" = db'.tableRows "mal_variable")
    (n : JValue) : db.lookupVariable n = db'.lookupVariable n := by
  unfold DB.lookupVariable
  rw [h]

/-- A well-formed variable entry: an object carrying a name and a type
that resolves in the given catalog.  Such an entry is processed without
error and always receives its list-entry row. -/
def goodVar (cat : List (JValue × Int)) (v : JValue) : Bool :=
  match v with
  | .obj fs =>
    (pyGet fs "name").isSome &&
      (match pyGet fs "type" with
       | some t => (lookupTypeCat cat t).isSome
       | none => false)
  | _ => false

/-- Processing one well-formed entry: no exception, exactly one list
entry added, at most one mal_variable row added, and a name that the
entry does not carry and that resolved to nothing keeps resolving to
nothing. -/
theorem processVar_good (tbl : String) (htbl : tbl ≠ "mal_variable")
    (s : ParserState) (v : JValue)
    (hv : goodVar s.db.typeCatalog v = true) :
    (processVar tbl s v).2 = none ∧
    ((processVar tbl s v).1.db.tableRows tbl).length =
      (s.db.tableRows tbl).length + 1 ∧
    ((processVar tbl s v).1.db.tableRows "mal_variable").length ≤
      (s.db.tableRows "mal_variable").length + 1 ∧
    (∀ n : JValue, (jvGet v "name" == some n) = false →
      s.db.lookupVariable n = none →
      (processVar tbl s v).1.db.lookupVariable n = none) := by
  rcases v with _ | b | m | s0 | xs | fs
  case null => simp [goodVar] at hv
  case bool => simp [goodVar] at hv
  case num => simp [goodVar] at hv
  case str => simp [goodVar] at hv
  case arr => simp [goodVar] at hv
  case obj =>
  rw [goodVar, Bool.and_eq_true] at hv
  obtain ⟨hn1, hn2⟩ := hv
  obtain ⟨nv, hnv⟩ := Option.isSome_iff_exists.mp hn1
  have hitem : pyGetItem (JValue.obj fs) "name" = Except.ok nv := by
    simp [pyGetItem, hnv]
  unfold processVar
  rw [hitem]
  dsimp only
  rcases hcase : s.db.lookupVariable nv with _ | fid
  · rcases hty : pyGet fs "type" with _ | tv
    · rw [hty] at hn2
      simp at hn2
    · rw [hty] at hn2
      obtain ⟨tid, htid⟩ := Option.isSome_iff_exists.mp hn2
      have hitem2 : pyGetItem (JValue.obj fs) "type" = Except.ok tv := by
        simp [pyGetItem, hty]
      have hT : (allocVariable s).db.lookupType tv = some tid := by
        simp [DB.lookupType, htid]
      rw [hitem2]
      dsimp only
      rw [hT]
      dsimp only
      refine ⟨rfl, ?_, ?_, ?_⟩
      · simp [Ne.symm htbl]
      · simp [htbl]
      · intro n hn hlk
        rw [insertRow_db, insertRow_db, lookupVariable_insert_other _ tbl _ n htbl]
        refine (lookupVariable_insert_mal_none _ _ n).mpr ⟨?_, ?_⟩
        · have h0 : (allocVariable s).db = s.db := rfl
          rw [h0]
          exact hlk
        · have hne : (nv == n) = false := by
            simpa [jvGet, hnv] using hn
          simp [variableRow, rowGet, jvGet, hnv, ofOpt, hne]
  · dsimp only
    refine ⟨rfl, ?_, ?_, ?_⟩
    · simp
    · simp [htbl]
    · intro n hn hlk
      rw [insertRow_db, lookupVariable_insert_other _ tbl _ n htbl]
      exact hlk

/-- Processing an entry whose name is fresh and whose type does not
resolve: nothing but the counter increment happens. -/
theorem processVar_unknown_type (tbl : String) (s : ParserState)
    (fs : PyDict) (un ut : JValue)
    (hname : pyGet fs "name" = some un)
    (hlook : s.db.lookupVariable un = none)
    (htype : pyGet fs "type" = some ut)
    (htid : lookupTypeCat s.db.typeCatalog ut = none) :
    processVar tbl s (JValue.obj fs) = (allocVariable s, none) := by
  have hitem : pyGetItem (JValue.obj fs) "name" = Except.ok un := by
    simp [pyGetItem, hname]
  have hitem2 : pyGetItem (JValue.obj fs) "type" = Except.ok ut := by
    simp [pyGetItem, htype]
  have hT : (allocVariable s).db.lookupType ut = none := by
    simp [DB.lookupType, htid]
  unfold processVar
  rw [hitem]
  dsimp only
  rw [hlook]
  dsimp only
  rw [hitem2]
  dsimp only
  rw [hT]

/-- The variable-list loop splits over list concatenation, stopping at
the first exception. -/
theorem processVarList_append (tbl : String) :
    ∀ (xs ys : List JValue) (s : ParserState),
      processVarList tbl s (xs ++ ys) =
        match processVarList tbl s xs with
        | (s1, none) => processVarList tbl s1 ys
        | (s1, some e) => (s1, some e) := by
  intro xs
  induction xs with
  | nil => intro ys s; rfl
  | cons x xs ih =>
    intro ys s
    show processVarList tbl s (x :: (xs ++ ys)) = _
    unfold processVarList
    rcases hx : processVar tbl s x with ⟨s1, e⟩
    rcases e with _ | e
    · dsimp only
      rw [ih ys s1]
      rcases processVarList tbl s1 xs with ⟨s2, _ | e2⟩
      · rcases ys with _ | ⟨y, ys⟩
        · rfl
        · rfl
      · rfl
    · dsimp only

/-- Processing a list of well-formed entries: no exception, one list
entry per element, at most one mal_variable row per element, and a fresh
name carried by none of the entries stays unresolved. -/
theorem processGoodList (tbl : String) (htbl : tbl ≠ "mal_variable")
    (un : JValue) :
    ∀ (vs : List JValue) (s : ParserState),
      vs.all (fun v => goodVar s.db.typeCatalog v) = true →
      (processVarList tbl s vs).2 = none ∧
      ((processVarList tbl s vs).1.db.tableRows tbl).length =
        (s.db.tableRows tbl).length + vs.length ∧
      ((processVarList tbl s vs).1.db.tableRows "mal_variable").length ≤
        (s.db.tableRows "mal_variable").length + vs.length ∧
      (vs.all (fun v => !(jvGet v "name" == some un)) = true →
        s.db.lookupVariable un = none →
        (processVarList tbl s vs).1.db.lookupVariable un = none) := by
  intro vs
  induction vs with
  | nil =>
    intro s hg
    exact ⟨rfl, rfl, Nat.le_add_right _ _, fun _ h => h⟩
  | cons v vs ih =>
    intro s hg
    rw [List.all_cons, Bool.and_eq_true] at hg
    obtain ⟨hgv, hgvs⟩ := hg
    obtain ⟨he, hc1, hc2, hlkp⟩ := processVar_good tbl htbl s v hgv
    rcases hx : processVar tbl s v with ⟨s1, e1⟩
    rw [hx] at he hc1 hc2 hlkp
    dsimp only at he hc1 hc2 hlkp
    subst he
    have hcat : s1.db.typeCatalog = s.db.typeCatalog := by
      have h := processVar_typeCatalog tbl s v
      rw [hx] at h
      exact h
    have hgs1 : vs.all (fun v => goodVar s1.db.typeCatalog v) = true := by
      rw [hcat]
      exact hgvs
    obtain ⟨ihe, ihc1, ihc2, ihlkp⟩ := ih s1 hgs1
    have hstep : processVarList tbl s (v :: vs) =
        processVarList tbl s1 vs := by
      unfold processVarList
      rw [hx]
      rcases vs with _ | ⟨w, ws⟩ <;> rfl
    rw [hstep]
    refine ⟨ihe, ?_, ?_, ?_⟩
    · rw [ihc1, hc1]
      simp only [List.length_cons]
      omega
    · simp only [List.length_cons]
      omega
    · intro hnames hlk
      rw [List.all_cons, Bool.and_eq_true] at hnames
      obtain ⟨hnv, hnvs⟩ := hnames
      have hf : (jvGet v "name" == some un) = false := by
        rwa [Bool.not_eq_eq_eq_not, Bool.not_true] at hnv
      exact ihlkp hnvs (hlkp un hf hlk)

/-- C6: for a trace whose argument list holds N entries — N-1
well-formed ones (name present, type resolvable) around one entry whose
fresh name has an unrecognized type — processing raises nothing, emits
exactly N-1 argument-list rows, no return-list row, at most N-1 new
mal_variable rows, and the execution and event rows are still emitted.
Here vs1 and vs2 are the well-formed entries around the bad one, so
N-1 = vs1.length + vs2.length.  The state token is assumed to map (spec
section 6: it is a string), since a list- or dict-valued token fails
the record before the event row and the argument loop. -/
theorem claim_C6_unknown_type_isolation (s : ParserState) (j : PyDict)
    (ps : List JValue) (vs1 vs2 : List JValue) (ufs : PyDict)
    (un ut : JValue) (st : Option Nat)
    (hstate : statesGet (pyGet j "state") = Except.ok st)
    (hpre : pyGet j "prereq" = some (JValue.arr ps))
    (hret : pyGet j "ret" = none)
    (harg : pyGet j "arg" =
      some (JValue.arr (vs1 ++ JValue.obj ufs :: vs2)))
    (hgood : (vs1 ++ vs2).all (fun v => goodVar s.db.typeCatalog v) =
      true)
    (huname : pyGet ufs "name" = some un)
    (hutype : pyGet ufs "type" = some ut)
    (hutid : lookupTypeCat s.db.typeCatalog ut = none)
    (hufresh : s.db.lookupVariable un = none)
    (hnames1 : vs1.all (fun v => !(jvGet v "name" == some un)) = true) :
    (ProfilerObjectParser_parse_trace s j).2 = none ∧
    ((ProfilerObjectParser_parse_trace s j).1.db.tableRows
        "argument_variable_list").length =
      (s.db.tableRows "argument_variable_list").length +
        vs1.length + vs2.length ∧
    ((ProfilerObjectParser_parse_trace s j).1.db.tableRows
        "return_variable_list").length =
      (s.db.tableRows "return_variable_list").length ∧
    ((ProfilerObjectParser_parse_trace s j).1.db.tableRows
        "mal_variable").length ≤
      (s.db.tableRows "mal_variable").length +
        vs1.length + vs2.length ∧
    ((ProfilerObjectParser_parse_trace s j).1.db.tableRows
        "mal_execution").length =
      (s.db.tableRows "mal_execution").length + 1 ∧
    ((ProfilerObjectParser_parse_trace s j).1.db.tableRows
        "profiler_event").length =
      (s.db.tableRows "profiler_event").length + 1 := by
  rw [List.all_append, Bool.and_eq_true] at hgood
  obtain ⟨hgood1, hgood2⟩ := hgood
  have hPT : ProfilerObjectParser_parse_trace s j =
      traceVarPhase
        (insertPrereqs (traceEvent (traceExec s j) j st) ps) j := by
    unfold ProfilerObjectParser_parse_trace
    rw [traceHead_ok s j st hstate]
    dsimp only
    rw [hpre]
    rfl
  set base := insertPrereqs (traceEvent (traceExec s j) j st) ps
    with hbase
  have hb_cat : base.db.typeCatalog = s.db.typeCatalog := by
    rw [hbase, insertPrereqs_typeCatalog, traceEvent_typeCatalog,
      traceExec_typeCatalog]
  have hb_arg : base.db.tableRows "argument_variable_list" =
      s.db.tableRows "argument_variable_list" := by
    rw [hbase, insertPrereqs_tableRows_other _ (by decide),
      traceEvent_tableRows_other _ (by decide),
      traceExec_tableRows_other _ (by decide)]
  have hb_ret : base.db.tableRows "return_variable_list" =
      s.db.tableRows "return_variable_list" := by
    rw [hbase, insertPrereqs_tableRows_other _ (by decide),
      traceEvent_tableRows_other _ (by decide),
      traceExec_tableRows_other _ (by decide)]
  have hb_mv : base.db.tableRows "mal_variable" =
      s.db.tableRows "mal_variable" := by
    rw [hbase, insertPrereqs_tableRows_other _ (by decide),
      traceEvent_tableRows_other _ (by decide),
      traceExec_tableRows_other _ (by decide)]
  have hb_me : (base.db.tableRows "mal_execution").length =
      (s.db.tableRows "mal_execution").length + 1 := by
    rw [hbase, insertPrereqs_tableRows_other _ (by decide),
      traceEvent_tableRows_other _ (by decide),
      traceExec_mal_execution]
    simp
  have hb_pe : (base.db.tableRows "profiler_event").length =
      (s.db.tableRows "profiler_event").length + 1 := by
    rw [hbase, insertPrereqs_tableRows_other _ (by decide),
      traceEvent_profiler_event,
      traceExec_tableRows_other _ (by decide)]
    simp
  have hb_lk : base.db.lookupVariable un = none := by
    rw [lookupVariable_eq_of_tableRows hb_mv un]
    exact hufresh
  have hphase : traceVarPhase base j =
      processVarList "argument_variable_list" base
        (vs1 ++ JValue.obj ufs :: vs2) := by
    unfold traceVarPhase
    have h1 : processField base j "ret" "return_variable_list" =
        (base, none) := by
      unfold processField pyGetD
      rw [hret]
      rfl
    rw [h1]
    show processField base j "arg" "argument_variable_list" = _
    unfold processField pyGetD
    rw [harg]
    rfl
  have hg1 : vs1.all (fun v => goodVar base.db.typeCatalog v) = true := by
    rw [hb_cat]
    exact hgood1
  obtain ⟨e1none, c1tbl, c1mv, lk1⟩ :=
    processGoodList "argument_variable_list" (by decide) un vs1 base hg1
  rcases hr1 : processVarList "argument_variable_list" base vs1
    with ⟨s1, e1⟩
  rw [hr1] at e1none c1tbl c1mv lk1
  dsimp only at e1none
  subst e1none
  have hlk1 : s1.db.lookupVariable un = none := lk1 hnames1 hb_lk
  have hcat1 : s1.db.typeCatalog = s.db.typeCatalog := by
    have h := processVarList_typeCatalog "argument_variable_list" vs1 base
    rw [hr1] at h
    rw [h]
    exact hb_cat
  have hu : processVar "argument_variable_list" s1 (JValue.obj ufs) =
      (allocVariable s1, none) :=
    processVar_unknown_type _ s1 ufs un ut huname hlk1 hutype
      (by rw [hcat1]; exact hutid)
  have hg2 : vs2.all
      (fun v => goodVar (allocVariable s1).db.typeCatalog v) = true := by
    have hd : (allocVariable s1).db = s1.db := rfl
    rw [hd, hcat1]
    exact hgood2
  obtain ⟨e2none, c2tbl, c2mv, _⟩ :=
    processGoodList "argument_variable_list" (by decide) un vs2
      (allocVariable s1) hg2
  have hassemble : processVarList "argument_variable_list" base
      (vs1 ++ JValue.obj ufs :: vs2) =
      processVarList "argument_variable_list" (allocVariable s1) vs2 := by
    rw [processVarList_append "argument_variable_list" vs1
      (JValue.obj ufs :: vs2) base, hr1]
    show processVarList "argument_variable_list" s1
      (JValue.obj ufs :: vs2) = _
    unfold processVarList
    rw [hu]
    rcases vs2 with _ | ⟨w, ws⟩ <;> rfl
  have hfinal : ProfilerObjectParser_parse_trace s j =
      processVarList "argument_variable_list" (allocVariable s1) vs2 := by
    rw [hPT, hphase, hassemble]
  have hd : (allocVariable s1).db = s1.db := rfl
  have hs1arg : (s1.db.tableRows "argument_variable_list").length =
      (s.db.tableRows "argument_variable_list").length + vs1.length := by
    rw [c1tbl, hb_arg]
  have hs1mv : (s1.db.tableRows "mal_variable").length ≤
      (s.db.tableRows "mal_variable").length + vs1.length := by
    rw [hb_mv] at c1mv
    exact c1mv
  have hs1ret : s1.db.tableRows "return_variable_list" =
      s.db.tableRows "return_variable_list" := by
    have h := processVarList_tableRows_other "argument_variable_list"
      "return_variable_list" (by decide) (by decide) vs1 base
    rw [hr1] at h
    rw [h]
    exact hb_ret
  have hs1me : (s1.db.tableRows "mal_execution").length =
      (s.db.tableRows "mal_execution").length + 1 := by
    have h := processVarList_tableRows_other "argument_variable_list"
      "mal_execution" (by decide) (by decide) vs1 base
    rw [hr1] at h
    rw [h]
    exact hb_me
  have hs1pe : (s1.db.tableRows "profiler_event").length =
      (s.db.tableRows "profiler_event").length + 1 := by
    have h := processVarList_tableRows_other "argument_variable_list"
      "profiler_event" (by decide) (by decide) vs1 base
    rw [hr1] at h
    rw [h]
    exact hb_pe
  have hvret := processVarList_tableRows_other "argument_variable_list"
    "return_variable_list" (by decide) (by decide) vs2 (allocVariable s1)
  have hvme := processVarList_tableRows_other "argument_variable_list"
    "mal_execution" (by decide) (by decide) vs2 (allocVariable s1)
  have hvpe := processVarList_tableRows_other "argument_variable_list"
    "profiler_event" (by decide) (by decide) vs2 (allocVariable s1)
  rw [hfinal]
  refine ⟨e2none, ?_, ?_, ?_, ?_, ?_⟩
  · rw [c2tbl, hd, hs1arg]
  · rw [hvret, hd, hs1ret]
  · rw [hd] at c2mv
    omega
  · rw [hvme, hd, hs1me]
  · rw [hvpe, hd, hs1pe]

/-- A third argument entry of known type: variable z of type int. -/
def varZ : JValue := JValue.obj
  [("name", JValue.str "z"), ("type", JValue.str "int"),
   ("index", JValue.num 2)]

/-- A trace with three arguments of which the middle one has an
unrecognized type. -/
def traceC6 : PyDict :=
  [("source", JValue.str "trace"), ("prereq", JValue.arr []),
   ("arg", JValue.arr [varX1, varU, varZ])]

/-- Witness for C6: the trace with arguments x (int), u (unknown type
zzz), z (int) — N = 3 — emits exactly 2 argument-list rows, at most 2
mal_variable rows, and still one execution and one event row. -/
theorem claim_C6_unknown_type_isolation_witness :
    (ProfilerObjectParser_parse_trace stFresh traceC6).2 = none ∧
    ((ProfilerObjectParser_parse_trace stFresh traceC6).1.db.tableRows
      "argument_variable_list").length = 2 ∧
    ((ProfilerObjectParser_parse_trace stFresh traceC6).1.db.tableRows
      "mal_variable").length ≤ 2 ∧
    ((ProfilerObjectParser_parse_trace stFresh traceC6).1.db.tableRows
      "mal_execution").length = 1 ∧
    ((ProfilerObjectParser_parse_trace stFresh traceC6).1.db.tableRows
      "profiler_event").length = 1 := by
  have h := claim_C6_unknown_type_isolation stFresh traceC6 []
    [varX1] [varZ]
    [("name", JValue.str "u"), ("type", JValue.str "zzz")]
    (JValue.str "u") (JValue.str "zzz") none
    rfl rfl rfl rfl rfl rfl rfl rfl rfl rfl
  refine ⟨h.1, ?_, ?_, ?_, ?_⟩
  · have := h.2.1
    simpa using this
  · have := h.2.2.2.1
    simpa using this
  · have := h.2.2.2.2.1
    simpa using this
  · have := h.2.2.2.2.2
    simpa using this

end MalProfiler
